import Mathlib

/-!
Verification development for the `gonebot` event-decoding core
(`event.go` and the earlier `event` package file).

The Go source decodes a OneBot JSON payload into one of ~17 typed event
variants (`convertJsonObjectToEvent`), then enriches the decoded value with
the derived fields `EventName` and `ToMe`.  Below we give a shallow
embedding: a JSON value model, the gjson-style string coercion, the
discriminator resolver, the per-variant structural decoder (modelling
`encoding/json` unmarshalling of the concrete structs), and the enrichment
step, followed by theorems about this pipeline.

Modelling notes, fixed once here:
  - Go `int64`/`int32` fields are modelled as `Int` (no arithmetic is
    performed on them, so overflow is irrelevant).
  - JSON numbers are modelled as integers (`Json.num : Int`); the payloads
    of this protocol carry only integral numbers.
  - `gjson`'s `Get` is modelled as plain top-level key lookup (first match);
    gjson path syntax (dots, wildcards) is not modelled.
  - a Go `panic` in `convertJsonObjectToEvent` is modelled as an `Except`
    error value (`DecodeError`); the panic's message content is reflected in
    the error constructor's payload where the code puts data in it.
-/

/-- JSON value, the model of one wire payload (`gjson.Result` over `obj.Raw`). -/
inductive Json where
  | null
  | bool (b : Bool)
  | num (n : Int)
  | str (s : String)
  | arr (xs : List Json)
  | obj (fields : List (String × Json))

/-- Top-level key lookup on a JSON object: first matching key, `none` on
non-objects and missing keys (models `gjson.Result.Get` for a plain key). -/
def jget (j : Json) (k : String) : Option Json :=
  match j with
  | .obj fields => fields.lookup k
  | _ => none

/-- Replace the value of key `k` (at its first occurrence), or append the
binding if the key is absent.  Used to state how decoding reacts to adding
or changing a payload key; non-objects are returned unchanged. -/
def setEntry (fields : List (String × Json)) (k : String) (v : Json) : List (String × Json) :=
  match fields with
  | [] => [(k, v)]
  | (k', v') :: rest => if k' = k then (k, v) :: rest else (k', v') :: setEntry rest k v

/-- Add or change one key of a JSON object payload. -/
def setKey (j : Json) (k : String) (v : Json) : Json :=
  match j with
  | .obj fields => .obj (setEntry fields k v)
  | _ => j

/-- Decimal digit characters of a natural number, most significant first.
Structural (fuel-based) so that the kernel can evaluate it; the fuel `n`
itself always suffices. -/
def natDecAux : Nat → Nat → List Char
  | 0, _ => []
  | fuel + 1, n => if n = 0 then [] else natDecAux fuel (n / 10) ++ [Nat.digitChar (n % 10)]

/-- Decimal rendering of a natural number (as produced by Go `fmt` `%d`). -/
def natDecimal (n : Nat) : String :=
  if n = 0 then "0" else String.mk (natDecAux n n)

/-- Decimal rendering of an integer (Go `fmt.Sprintf` with `%d` on `int64`). -/
def intDecimal : Int → String
  | .ofNat n => natDecimal n
  | .negSucc n => "-" ++ natDecimal (n + 1)

mutual
/-- Canonical serialization of a JSON value; stands in for gjson's `Raw`
text when a non-scalar is coerced to a string. -/
def serializeJson : Json → String
  | .null => "null"
  | .bool true => "true"
  | .bool false => "false"
  | .num n => intDecimal n
  | .str s => "\x22" ++ s ++ "\x22"
  | .arr xs => "[" ++ serializeArr xs ++ "]"
  | .obj fs => "\x7b" ++ serializeObj fs ++ "\x7d"

def serializeArr : List Json → String
  | [] => ""
  | [x] => serializeJson x
  | x :: y :: xs => serializeJson x ++ "," ++ serializeArr (y :: xs)

def serializeObj : List (String × Json) → String
  | [] => ""
  | [(k, v)] => "\x22" ++ k ++ "\x22:" ++ serializeJson v
  | (k, v) :: y :: xs => "\x22" ++ k ++ "\x22:" ++ serializeJson v ++ "," ++ serializeObj (y :: xs)
end

/-- The string coercion `gjson.Result.String()` applied to the result of a
`Get`: missing key and `null` give `""`, strings give their value, numbers
their decimal text, booleans `true`/`false`, and non-scalars their raw
JSON text. -/
def gstring : Option Json → String
  | none => ""
  | some .null => ""
  | some (.bool b) => if b then "true" else "false"
  | some (.num n) => intDecimal n
  | some (.str s) => s
  | some (.arr xs) => serializeJson (.arr xs)
  | some (.obj fs) => serializeJson (.obj fs)

/-- The first discriminator: `obj.Get("post_type").String()`. -/
def resolvedPostType (p : Json) : String :=
  gstring (jget p "post_type")

/-- The second discriminator: `obj.Get(postType + "_type").String()`. -/
def resolvedNextType (p : Json) : String :=
  gstring (jget p (resolvedPostType p ++ "_type"))

/-- The two-segment type name: `fmt.Sprintf("%s.%s", postType, nextType)`. -/
def resolvedTypeName (p : Json) : String :=
  resolvedPostType p ++ "." ++ resolvedNextType p

/-- Whether the payload carries a `sub_type` field: `obj.Get("sub_type").Exists()`. -/
def subTypePresent (p : Json) : Bool :=
  (jget p "sub_type").isSome

/-- The third discriminator: `obj.Get("sub_type").String()` when present, else `""`. -/
def resolvedSubType (p : Json) : String :=
  if subTypePresent p then gstring (jget p "sub_type") else ""

/-- The full event name: `typeName + "." + subType` when `sub_type` is
present, else `typeName`. -/
def resolvedFullTypeName (p : Json) : String :=
  if subTypePresent p then resolvedTypeName p ++ "." ++ resolvedSubType p
  else resolvedTypeName p

/-- Modelled from the spec: the message-content adapter (the `Message` type
lives outside the decoding core's source).  The spec specifies it only at
its interface boundary: an opaque value offering `ExtractPlainText()` and
`String()`, plus the inspection capability used by the enricher to tell
whether the content @mentions or replies to a given id.  We model it as the
rendered content string together with the list of ids the content mentions
or replies to. -/
structure Message where
  content : String
  atOrReplyTargets : List Int
  deriving DecidableEq

/-- Modelled from the spec: the adapter's `ExtractPlainText()` capability. -/
def Message.ExtractPlainText (m : Message) := m.content

/-- Modelled from the spec: the adapter's `String()` capability (the
`Stringer` method used by the description formatters). -/
def Message.String (m : Message) := m.content

/-- Modelled from the spec: the adapter's inspection capability — does the
content signal an @mention of / reply to the given id? -/
def Message.atOrRepliesTo (m : Message) (id : Int) : Bool :=
  m.atOrReplyTargets.contains id

/-- Modelled from the spec: text contributed by one message segment. -/
def segText (seg : Json) : String :=
  if gstring (jget seg "type") = "text" then
    match jget seg "data" with
    | some d => gstring (jget d "text")
    | none => ""
  else ""

/-- Modelled from the spec: the id mentioned or replied to by one message
segment, when the segment is an `at` or `reply` segment. -/
def segMentionTarget (seg : Json) : Option Int :=
  if gstring (jget seg "type") = "at" || gstring (jget seg "type") = "reply" then
    match jget seg "data" with
    | some d =>
      match jget d "qq" with
      | some (.num n) => some n
      | _ => none
    | none => none
  else none

/-- Modelled from the spec: constructing the adapter value from the wire
`message` field.  A plain string message carries no mention segments; an
array of segment objects contributes its `text` segments to the content and
its `at`/`reply` segments' targets to the mention list; other shapes give
the empty content.  (The adapter's wire format is a detail of that
collaborator; only the interface above matters to the claims.) -/
def Message.fromJsonValue (o : Option Json) : Message :=
  match o with
  | some (.str s) => { content := s, atOrReplyTargets := [] }
  | some (.arr segs) =>
    { content := String.join (segs.map segText), atOrReplyTargets := segs.filterMap segMentionTarget }
  | _ => { content := "", atOrReplyTargets := [] }

/-- The base `Event` struct: wire fields `time`, `self_id`, `post_type`,
plus the two derived fields marked `json:"-"` in the source. -/
structure Event where
  Time : Int
  SelfId : Int
  PostType : String
  EventName : String
  ToMe : Bool
  deriving DecidableEq

/-- The shared `MessageEvent` struct embedded in both message variants. -/
structure MessageEvent extends Event where
  MessageType : String
  SubType : String
  MessageId : Int
  UserId : Int
  Message : Message
  RawMessage : String
  Font : Int
  deriving DecidableEq

/-- Sender profile of a private message (`MessageEventSender`). -/
structure MessageEventSender where
  UserId : Int
  Nickname : String
  Sex : String
  Age : Int
  deriving DecidableEq

/-- Sender profile of a group message (`GroupMessageEventSender`). -/
structure GroupMessageEventSender extends MessageEventSender where
  Card : String
  Area : String
  Level : String
  Role : String
  Title : String
  deriving DecidableEq

/-- Anonymous-sender descriptor (`Anonymous`). -/
structure Anonymous where
  Id : Int
  Name : String
  Flag : String
  deriving DecidableEq

/-- `PrivateMessageEvent`; the `Sender` pointer is an `Option`. -/
structure PrivateMessageEvent extends MessageEvent where
  Sender : Option MessageEventSender
  deriving DecidableEq

/-- `GroupMessageEvent`; the `Sender` and `Anonymous` pointers are `Option`s. -/
structure GroupMessageEvent extends MessageEvent where
  GroupId : Int
  Sender : Option GroupMessageEventSender
  Anonymous : Option Anonymous
  deriving DecidableEq

/-- `LifeCycleMetaEvent`. -/
structure LifeCycleMetaEvent extends Event where
  MetaEventType : String
  SubType : String
  deriving DecidableEq

/-- The anonymous `status` struct of `HeartbeatMetaEvent`. -/
structure HeartbeatStatus where
  Online : Bool
  Good : Bool
  deriving DecidableEq

/-- `HeartbeatMetaEvent`. -/
structure HeartbeatMetaEvent extends Event where
  MetaEventType : String
  Status : HeartbeatStatus
  Interval : Int
  deriving DecidableEq

/-- The shared `NoticeEvent` struct embedded in all notice variants. -/
structure NoticeEvent extends Event where
  NoticeType : String
  deriving DecidableEq

/-- The anonymous `file` struct of `GroupUploadNoticeEvent`. -/
structure GroupUploadFile where
  Id : String
  Name : String
  Size : Int
  BusId : String
  deriving DecidableEq

/-- `GroupUploadNoticeEvent`. -/
structure GroupUploadNoticeEvent extends NoticeEvent where
  GroupId : Int
  UserId : Int
  File : GroupUploadFile
  deriving DecidableEq

/-- `GroupAdminNoticeEvent`. -/
structure GroupAdminNoticeEvent extends NoticeEvent where
  SubType : String
  GroupId : Int
  UserId : Int
  deriving DecidableEq

/-- `GroupIncreaseNoticeEvent`. -/
structure GroupIncreaseNoticeEvent extends NoticeEvent where
  SubType : String
  GroupId : Int
  UserId : Int
  OperatorId : Int
  deriving DecidableEq

/-- `GroupDecreaseNoticeEvent`. -/
structure GroupDecreaseNoticeEvent extends NoticeEvent where
  SubType : String
  GroupId : Int
  UserId : Int
  OperatorId : Int
  deriving DecidableEq

/-- `GroupBanNoticeEvent`. -/
structure GroupBanNoticeEvent extends NoticeEvent where
  SubType : String
  GroupId : Int
  UserId : Int
  OperatorId : Int
  Duration : Int
  deriving DecidableEq

/-- `FriendAddNoticeEvent`. -/
structure FriendAddNoticeEvent extends NoticeEvent where
  UserId : Int
  deriving DecidableEq

/-- `GroupRecallNoticeEvent`. -/
structure GroupRecallNoticeEvent extends NoticeEvent where
  GroupId : Int
  UserId : Int
  OperatorId : Int
  MessageId : Int
  deriving DecidableEq

/-- `FriendRecallNoticeEvent`. -/
structure FriendRecallNoticeEvent extends NoticeEvent where
  UserId : Int
  MessageId : Int
  deriving DecidableEq

/-- `PokeNoticeEvent`. -/
structure PokeNoticeEvent extends NoticeEvent where
  SubType : String
  GroupId : Int
  UserId : Int
  TargetId : Int
  deriving DecidableEq

/-- `LuckyKingNoticeEvent`. -/
structure LuckyKingNoticeEvent extends NoticeEvent where
  SubType : String
  GroupId : Int
  UserId : Int
  TargetId : Int
  deriving DecidableEq

/-- `HonorNoticeEvent`. -/
structure HonorNoticeEvent extends NoticeEvent where
  SubType : String
  GroupId : Int
  UserId : Int
  HonorType : String
  deriving DecidableEq

/-- `FriendRequestEvent`. -/
structure FriendRequestEvent extends Event where
  RequestType : String
  UserId : Int
  Comment : String
  Flag : String
  deriving DecidableEq

/-- `GroupRequestEvent`. -/
structure GroupRequestEvent extends Event where
  RequestType : String
  SubType : String
  GroupId : Int
  UserId : Int
  Comment : String
  Flag : String
  deriving DecidableEq

/-- The closed set of concrete event values behind the Go `I_Event`
interface: one constructor per struct that `convertJsonObjectToEvent` can
allocate. -/
inductive I_Event where
  | privateMessage (e : PrivateMessageEvent)
  | groupMessage (e : GroupMessageEvent)
  | groupUpload (e : GroupUploadNoticeEvent)
  | groupAdmin (e : GroupAdminNoticeEvent)
  | groupDecrease (e : GroupDecreaseNoticeEvent)
  | groupIncrease (e : GroupIncreaseNoticeEvent)
  | groupBan (e : GroupBanNoticeEvent)
  | friendAdd (e : FriendAddNoticeEvent)
  | groupRecall (e : GroupRecallNoticeEvent)
  | friendRecall (e : FriendRecallNoticeEvent)
  | poke (e : PokeNoticeEvent)
  | luckyKing (e : LuckyKingNoticeEvent)
  | honor (e : HonorNoticeEvent)
  | friendRequest (e : FriendRequestEvent)
  | groupRequest (e : GroupRequestEvent)
  | lifecycle (e : LifeCycleMetaEvent)
  | heartbeat (e : HeartbeatMetaEvent)
  deriving DecidableEq

/-- The embedded base `Event` of a concrete event value (every variant
embeds `Event`, directly or through `MessageEvent`/`NoticeEvent`). -/
def I_Event.base : I_Event → Event
  | .privateMessage e => e.toEvent
  | .groupMessage e => e.toEvent
  | .groupUpload e => e.toEvent
  | .groupAdmin e => e.toEvent
  | .groupDecrease e => e.toEvent
  | .groupIncrease e => e.toEvent
  | .groupBan e => e.toEvent
  | .friendAdd e => e.toEvent
  | .groupRecall e => e.toEvent
  | .friendRecall e => e.toEvent
  | .poke e => e.toEvent
  | .luckyKing e => e.toEvent
  | .honor e => e.toEvent
  | .friendRequest e => e.toEvent
  | .groupRequest e => e.toEvent
  | .lifecycle e => e.toEvent
  | .heartbeat e => e.toEvent

/-- `Event.GetPostType`, promoted to the interface value. -/
def I_Event.GetPostType (ev : I_Event) : String := ev.base.PostType

/-- `Event.GetEventName`, promoted to the interface value. -/
def I_Event.GetEventName (ev : I_Event) : String := ev.base.EventName

/-- `Event.IsMessageEvent`: `PostType == POST_TYPE_MESSAGE`. -/
def I_Event.IsMessageEvent (ev : I_Event) : Bool := ev.base.PostType = "message"

/-- `Event.IsToMe`: returns the derived `ToMe` field. -/
def I_Event.IsToMe (ev : I_Event) : Bool := ev.base.ToMe

/-- Apply an update to the embedded base `Event` of a concrete event value
(the typed form of what the reflective `setEventField` does). -/
def I_Event.mapBase (f : Event → Event) : I_Event → I_Event
  | .privateMessage e => .privateMessage { e with toEvent := f e.toEvent }
  | .groupMessage e => .groupMessage { e with toEvent := f e.toEvent }
  | .groupUpload e => .groupUpload { e with toEvent := f e.toEvent }
  | .groupAdmin e => .groupAdmin { e with toEvent := f e.toEvent }
  | .groupDecrease e => .groupDecrease { e with toEvent := f e.toEvent }
  | .groupIncrease e => .groupIncrease { e with toEvent := f e.toEvent }
  | .groupBan e => .groupBan { e with toEvent := f e.toEvent }
  | .friendAdd e => .friendAdd { e with toEvent := f e.toEvent }
  | .groupRecall e => .groupRecall { e with toEvent := f e.toEvent }
  | .friendRecall e => .friendRecall { e with toEvent := f e.toEvent }
  | .poke e => .poke { e with toEvent := f e.toEvent }
  | .luckyKing e => .luckyKing { e with toEvent := f e.toEvent }
  | .honor e => .honor { e with toEvent := f e.toEvent }
  | .friendRequest e => .friendRequest { e with toEvent := f e.toEvent }
  | .groupRequest e => .groupRequest { e with toEvent := f e.toEvent }
  | .lifecycle e => .lifecycle { e with toEvent := f e.toEvent }
  | .heartbeat e => .heartbeat { e with toEvent := f e.toEvent }

/-- Modelled from the spec: `setEventField(ev, "EventName", v)` — the
reflective injection of the derived event name, typed per variant. -/
def setEventNameField (ev : I_Event) (v : String) : I_Event :=
  ev.mapBase fun b => { b with EventName := v }

/-- Modelled from the spec: `setEventField(ev, "ToMe", v)` — the reflective
injection of the derived addressed-to-me flag, typed per variant. -/
def setToMeField (ev : I_Event) (v : Bool) : I_Event :=
  ev.mapBase fun b => { b with ToMe := v }

/-- Modelled from the spec: `isEventRelativeToBot` (defined outside this
core's source).  Per the spec's enricher contract, the event concerns the
bot when it is a private message; a group message whose content @mentions
or replies to `SelfId`; a group-decrease notice whose affected user is
`SelfId`; a poke notice whose target is `SelfId`; a friend-add notice; or
any request event. -/
def isEventRelativeToBot : I_Event → Bool
  | .privateMessage _ => true
  | .groupMessage e => e.Message.atOrRepliesTo e.SelfId
  | .groupDecrease e => e.UserId == e.SelfId
  | .poke e => e.TargetId == e.SelfId
  | .friendAdd _ => true
  | .friendRequest _ => true
  | .groupRequest _ => true
  | _ => false

/-- Scalar JSON target types of the Go struct fields. -/
inductive STy where
  | int
  | str
  | bool
  deriving DecidableEq

/-- JSON target type of a top-level Go struct field: a scalar, the opaque
message-adapter value, or a nested (anonymous or pointed-to) struct whose
own exported fields are scalars. -/
inductive FieldTy where
  | int
  | str
  | bool
  | msg
  | obj (inner : List (String × STy))
  deriving DecidableEq

/-- Does `encoding/json` accept this JSON value for a scalar target field?
Missing fields and JSON `null` are accepted (the field keeps its zero
value); a value of the matching JSON type is accepted; anything else is an
`UnmarshalTypeError`. -/
def checkScalar (ty : STy) (o : Option Json) : Bool :=
  match ty, o with
  | _, none => true
  | _, some .null => true
  | .int, some (.num _) => true
  | .str, some (.str _) => true
  | .bool, some (.bool _) => true
  | _, _ => false

/-- Does `encoding/json` accept this JSON value for a top-level target
field?  Nested structs require an object (or nothing/`null`) and recursively
check their scalar fields; the message-adapter value accepts anything
(modelled from the spec, see `Message.fromJsonValue`). -/
def checkField (ty : FieldTy) (o : Option Json) : Bool :=
  match ty, o with
  | _, none => true
  | _, some .null => true
  | .int, some (.num _) => true
  | .str, some (.str _) => true
  | .bool, some (.bool _) => true
  | .msg, some _ => true
  | .obj inner, some (.obj fs) => inner.all fun kt => checkScalar kt.2 (jget (.obj fs) kt.1)
  | _, _ => false

/-- Does `json.Unmarshal(obj.Raw, ev)` succeed for a struct with the given
field schema?  (Unknown payload keys are ignored; listed fields must be
type-compatible.) -/
def checkFields (sch : List (String × FieldTy)) (p : Json) : Bool :=
  sch.all fun kt => checkField kt.2 (jget p kt.1)

/-- Wire schema of the embedded base `Event` (`EventName` and `ToMe` carry
the `json:"-"` tag and are therefore absent). -/
def eventSchema : List (String × FieldTy) :=
  [("time", .int), ("self_id", .int), ("post_type", .str)]

/-- Wire schema of the embedded `MessageEvent`. -/
def messageEventSchema : List (String × FieldTy) :=
  eventSchema ++
  [("message_type", .str), ("sub_type", .str), ("message_id", .int),
   ("user_id", .int), ("message", .msg), ("raw_message", .str), ("font", .int)]

/-- Wire schema of `MessageEventSender`'s fields. -/
def senderSchema : List (String × STy) :=
  [("user_id", .int), ("nickname", .str), ("sex", .str), ("age", .int)]

/-- Wire schema of `GroupMessageEventSender`'s fields. -/
def groupSenderSchema : List (String × STy) :=
  senderSchema ++
  [("card", .str), ("area", .str), ("level", .str), ("role", .str), ("title", .str)]

/-- Wire schema of `PrivateMessageEvent`.  Its `Sender` field carries no
json tag, so `encoding/json` matches it by field name, case-insensitively;
the wire key is `sender`. -/
def privateMessageSchema : List (String × FieldTy) :=
  messageEventSchema ++ [("sender", .obj senderSchema)]

/-- Wire schema of `GroupMessageEvent`. -/
def groupMessageSchema : List (String × FieldTy) :=
  messageEventSchema ++
  [("group_id", .int), ("sender", .obj groupSenderSchema),
   ("anonymous", .obj [("id", .int), ("name", .str), ("flag", .str)])]

/-- Wire schema of the embedded `NoticeEvent`. -/
def noticeEventSchema : List (String × FieldTy) :=
  eventSchema ++ [("notice_type", .str)]

/-- Wire schema of `GroupUploadNoticeEvent`. -/
def groupUploadSchema : List (String × FieldTy) :=
  noticeEventSchema ++
  [("group_id", .int), ("user_id", .int),
   ("file", .obj [("id", .str), ("name", .str), ("size", .int), ("bus_id", .str)])]

/-- Wire schema of `GroupAdminNoticeEvent`. -/
def groupAdminSchema : List (String × FieldTy) :=
  noticeEventSchema ++ [("sub_type", .str), ("group_id", .int), ("user_id", .int)]

/-- Wire schema of `GroupIncreaseNoticeEvent`. -/
def groupIncreaseSchema : List (String × FieldTy) :=
  noticeEventSchema ++
  [("sub_type", .str), ("group_id", .int), ("user_id", .int), ("operator_id", .int)]

/-- Wire schema of `GroupDecreaseNoticeEvent`. -/
def groupDecreaseSchema : List (String × FieldTy) :=
  noticeEventSchema ++
  [("sub_type", .str), ("group_id", .int), ("user_id", .int), ("operator_id", .int)]

/-- Wire schema of `GroupBanNoticeEvent`. -/
def groupBanSchema : List (String × FieldTy) :=
  noticeEventSchema ++
  [("sub_type", .str), ("group_id", .int), ("user_id", .int), ("operator_id", .int),
   ("duration", .int)]

/-- Wire schema of `FriendAddNoticeEvent`. -/
def friendAddSchema : List (String × FieldTy) :=
  noticeEventSchema ++ [("user_id", .int)]

/-- Wire schema of `GroupRecallNoticeEvent`. -/
def groupRecallSchema : List (String × FieldTy) :=
  noticeEventSchema ++
  [("group_id", .int), ("user_id", .int), ("operator_id", .int), ("message_id", .int)]

/-- Wire schema of `FriendRecallNoticeEvent`. -/
def friendRecallSchema : List (String × FieldTy) :=
  noticeEventSchema ++ [("user_id", .int), ("message_id", .int)]

/-- Wire schema of `PokeNoticeEvent`. -/
def pokeSchema : List (String × FieldTy) :=
  noticeEventSchema ++
  [("sub_type", .str), ("group_id", .int), ("user_id", .int), ("target_id", .int)]

/-- Wire schema of `LuckyKingNoticeEvent`. -/
def luckyKingSchema : List (String × FieldTy) :=
  noticeEventSchema ++
  [("sub_type", .str), ("group_id", .int), ("user_id", .int), ("target_id", .int)]

/-- Wire schema of `HonorNoticeEvent`. -/
def honorSchema : List (String × FieldTy) :=
  noticeEventSchema ++
  [("sub_type", .str), ("group_id", .int), ("user_id", .int), ("honor_type", .str)]

/-- Wire schema of `FriendRequestEvent`. -/
def friendRequestSchema : List (String × FieldTy) :=
  eventSchema ++
  [("request_type", .str), ("user_id", .int), ("comment", .str), ("flag", .str)]

/-- Wire schema of `GroupRequestEvent`. -/
def groupRequestSchema : List (String × FieldTy) :=
  eventSchema ++
  [("request_type", .str), ("sub_type", .str), ("group_id", .int), ("user_id", .int),
   ("comment", .str), ("flag", .str)]

/-- Wire schema of `LifeCycleMetaEvent`. -/
def lifecycleSchema : List (String × FieldTy) :=
  eventSchema ++ [("meta_event_type", .str), ("sub_type", .str)]

/-- Wire schema of `HeartbeatMetaEvent`. -/
def heartbeatSchema : List (String × FieldTy) :=
  eventSchema ++
  [("meta_event_type", .str), ("status", .obj [("online", .bool), ("good", .bool)]),
   ("interval", .int)]

/-- Value taken by an `int64`/`int32` target field once `checkFields`
passed: the number when present, otherwise the zero value. -/
def dIntVal : Option Json → Int
  | some (.num n) => n
  | _ => 0

/-- Value taken by a `string` target field once `checkFields` passed. -/
def dStrVal : Option Json → String
  | some (.str s) => s
  | _ => ""

/-- Value taken by a `bool` target field once `checkFields` passed. -/
def dBoolVal : Option Json → Bool
  | some (.bool b) => b
  | _ => false

/-- The nested object a struct-typed target field is decoded from, when
present (`none` means the pointer stays nil / the value struct stays zero). -/
def dObjVal : Option Json → Option Json
  | some (.obj fs) => some (.obj fs)
  | _ => none

def dInt (p : Json) (k : String) : Int := dIntVal (jget p k)

def dStr (p : Json) (k : String) : String := dStrVal (jget p k)

def dObj (p : Json) (k : String) : Option Json := dObjVal (jget p k)

/-- Decoded embedded base `Event`: the wire fields, with the derived
`json:"-"` fields at their zero values. -/
def buildEvent (p : Json) : Event :=
  { Time := dInt p "time", SelfId := dInt p "self_id", PostType := dStr p "post_type",
    EventName := "", ToMe := false }

/-- Decoded embedded `MessageEvent`. -/
def buildMessageEvent (p : Json) : MessageEvent :=
  { toEvent := buildEvent p,
    MessageType := dStr p "message_type", SubType := dStr p "sub_type",
    MessageId := dInt p "message_id", UserId := dInt p "user_id",
    Message := Message.fromJsonValue (jget p "message"),
    RawMessage := dStr p "raw_message", Font := dInt p "font" }

/-- Decoded `MessageEventSender` from a present `sender` object. -/
def buildSender (j : Json) : MessageEventSender :=
  { UserId := dInt j "user_id", Nickname := dStr j "nickname",
    Sex := dStr j "sex", Age := dInt j "age" }

/-- Decoded `GroupMessageEventSender` from a present `sender` object. -/
def buildGroupSender (j : Json) : GroupMessageEventSender :=
  { toMessageEventSender := buildSender j,
    Card := dStr j "card", Area := dStr j "area", Level := dStr j "level",
    Role := dStr j "role", Title := dStr j "title" }

/-- Decoded `Anonymous` from a present `anonymous` object. -/
def buildAnonymous (j : Json) : Anonymous :=
  { Id := dInt j "id", Name := dStr j "name", Flag := dStr j "flag" }

/-- Decoded `PrivateMessageEvent`. -/
def buildPrivateMessage (p : Json) : PrivateMessageEvent :=
  { toMessageEvent := buildMessageEvent p,
    Sender := (dObj p "sender").map buildSender }

/-- Decoded `GroupMessageEvent`. -/
def buildGroupMessage (p : Json) : GroupMessageEvent :=
  { toMessageEvent := buildMessageEvent p,
    GroupId := dInt p "group_id",
    Sender := (dObj p "sender").map buildGroupSender,
    Anonymous := (dObj p "anonymous").map buildAnonymous }

/-- Decoded embedded `NoticeEvent`. -/
def buildNoticeEvent (p : Json) : NoticeEvent :=
  { toEvent := buildEvent p, NoticeType := dStr p "notice_type" }

/-- Decoded `GroupUploadNoticeEvent`; the `file` value struct stays zero
when the key is absent. -/
def buildGroupUpload (p : Json) : GroupUploadNoticeEvent :=
  { toNoticeEvent := buildNoticeEvent p,
    GroupId := dInt p "group_id", UserId := dInt p "user_id",
    File :=
      match dObj p "file" with
      | some j =>
        { Id := dStr j "id", Name := dStr j "name", Size := dInt j "size",
          BusId := dStr j "bus_id" }
      | none => { Id := "", Name := "", Size := 0, BusId := "" } }

/-- Decoded `GroupAdminNoticeEvent`. -/
def buildGroupAdmin (p : Json) : GroupAdminNoticeEvent :=
  { toNoticeEvent := buildNoticeEvent p,
    SubType := dStr p "sub_type", GroupId := dInt p "group_id", UserId := dInt p "user_id" }

/-- Decoded `GroupIncreaseNoticeEvent`. -/
def buildGroupIncrease (p : Json) : GroupIncreaseNoticeEvent :=
  { toNoticeEvent := buildNoticeEvent p,
    SubType := dStr p "sub_type", GroupId := dInt p "group_id",
    UserId := dInt p "user_id", OperatorId := dInt p "operator_id" }

/-- Decoded `GroupDecreaseNoticeEvent`. -/
def buildGroupDecrease (p : Json) : GroupDecreaseNoticeEvent :=
  { toNoticeEvent := buildNoticeEvent p,
    SubType := dStr p "sub_type", GroupId := dInt p "group_id",
    UserId := dInt p "user_id", OperatorId := dInt p "operator_id" }

/-- Decoded `GroupBanNoticeEvent`. -/
def buildGroupBan (p : Json) : GroupBanNoticeEvent :=
  { toNoticeEvent := buildNoticeEvent p,
    SubType := dStr p "sub_type", GroupId := dInt p "group_id",
    UserId := dInt p "user_id", OperatorId := dInt p "operator_id",
    Duration := dInt p "duration" }

/-- Decoded `FriendAddNoticeEvent`. -/
def buildFriendAdd (p : Json) : FriendAddNoticeEvent :=
  { toNoticeEvent := buildNoticeEvent p, UserId := dInt p "user_id" }

/-- Decoded `GroupRecallNoticeEvent`. -/
def buildGroupRecall (p : Json) : GroupRecallNoticeEvent :=
  { toNoticeEvent := buildNoticeEvent p,
    GroupId := dInt p "group_id", UserId := dInt p "user_id",
    OperatorId := dInt p "operator_id", MessageId := dInt p "message_id" }

/-- Decoded `FriendRecallNoticeEvent`. -/
def buildFriendRecall (p : Json) : FriendRecallNoticeEvent :=
  { toNoticeEvent := buildNoticeEvent p,
    UserId := dInt p "user_id", MessageId := dInt p "message_id" }

/-- Decoded `PokeNoticeEvent`. -/
def buildPoke (p : Json) : PokeNoticeEvent :=
  { toNoticeEvent := buildNoticeEvent p,
    SubType := dStr p "sub_type", GroupId := dInt p "group_id",
    UserId := dInt p "user_id", TargetId := dInt p "target_id" }

/-- Decoded `LuckyKingNoticeEvent`. -/
def buildLuckyKing (p : Json) : LuckyKingNoticeEvent :=
  { toNoticeEvent := buildNoticeEvent p,
    SubType := dStr p "sub_type", GroupId := dInt p "group_id",
    UserId := dInt p "user_id", TargetId := dInt p "target_id" }

/-- Decoded `HonorNoticeEvent`. -/
def buildHonor (p : Json) : HonorNoticeEvent :=
  { toNoticeEvent := buildNoticeEvent p,
    SubType := dStr p "sub_type", GroupId := dInt p "group_id",
    UserId := dInt p "user_id", HonorType := dStr p "honor_type" }

/-- Decoded `FriendRequestEvent`. -/
def buildFriendRequest (p : Json) : FriendRequestEvent :=
  { toEvent := buildEvent p,
    RequestType := dStr p "request_type", UserId := dInt p "user_id",
    Comment := dStr p "comment", Flag := dStr p "flag" }

/-- Decoded `GroupRequestEvent`. -/
def buildGroupRequest (p : Json) : GroupRequestEvent :=
  { toEvent := buildEvent p,
    RequestType := dStr p "request_type", SubType := dStr p "sub_type",
    GroupId := dInt p "group_id", UserId := dInt p "user_id",
    Comment := dStr p "comment", Flag := dStr p "flag" }

/-- Decoded `LifeCycleMetaEvent`. -/
def buildLifecycle (p : Json) : LifeCycleMetaEvent :=
  { toEvent := buildEvent p,
    MetaEventType := dStr p "meta_event_type", SubType := dStr p "sub_type" }

/-- Decoded `HeartbeatMetaEvent`; the `status` value struct stays zero when
the key is absent. -/
def buildHeartbeat (p : Json) : HeartbeatMetaEvent :=
  { toEvent := buildEvent p,
    MetaEventType := dStr p "meta_event_type",
    Status :=
      match dObj p "status" with
      | some j => { Online := dBoolVal (jget j "online"), Good := dBoolVal (jget j "good") }
      | none => { Online := false, Good := false },
    Interval := dInt p "interval" }

/-- The variant chosen by the type switch in `convertJsonObjectToEvent`. -/
inductive VariantTag where
  | privateMessage
  | groupMessage
  | groupUpload
  | groupAdmin
  | groupDecrease
  | groupIncrease
  | groupBan
  | friendAdd
  | groupRecall
  | friendRecall
  | poke
  | luckyKing
  | honor
  | friendRequest
  | groupRequest
  | lifecycle
  | heartbeat
  deriving DecidableEq

/-- Wire schema of the struct allocated for a variant. -/
def schemaOf : VariantTag → List (String × FieldTy)
  | .privateMessage => privateMessageSchema
  | .groupMessage => groupMessageSchema
  | .groupUpload => groupUploadSchema
  | .groupAdmin => groupAdminSchema
  | .groupDecrease => groupDecreaseSchema
  | .groupIncrease => groupIncreaseSchema
  | .groupBan => groupBanSchema
  | .friendAdd => friendAddSchema
  | .groupRecall => groupRecallSchema
  | .friendRecall => friendRecallSchema
  | .poke => pokeSchema
  | .luckyKing => luckyKingSchema
  | .honor => honorSchema
  | .friendRequest => friendRequestSchema
  | .groupRequest => groupRequestSchema
  | .lifecycle => lifecycleSchema
  | .heartbeat => heartbeatSchema

/-- Decoded struct of a variant (used after `checkFields` has passed). -/
def buildVariant : VariantTag → Json → I_Event
  | .privateMessage, p => .privateMessage (buildPrivateMessage p)
  | .groupMessage, p => .groupMessage (buildGroupMessage p)
  | .groupUpload, p => .groupUpload (buildGroupUpload p)
  | .groupAdmin, p => .groupAdmin (buildGroupAdmin p)
  | .groupDecrease, p => .groupDecrease (buildGroupDecrease p)
  | .groupIncrease, p => .groupIncrease (buildGroupIncrease p)
  | .groupBan, p => .groupBan (buildGroupBan p)
  | .friendAdd, p => .friendAdd (buildFriendAdd p)
  | .groupRecall, p => .groupRecall (buildGroupRecall p)
  | .friendRecall, p => .friendRecall (buildFriendRecall p)
  | .poke, p => .poke (buildPoke p)
  | .luckyKing, p => .luckyKing (buildLuckyKing p)
  | .honor, p => .honor (buildHonor p)
  | .friendRequest, p => .friendRequest (buildFriendRequest p)
  | .groupRequest, p => .groupRequest (buildGroupRequest p)
  | .lifecycle, p => .lifecycle (buildLifecycle p)
  | .heartbeat, p => .heartbeat (buildHeartbeat p)

/-- Failure of one decode call (a Go `panic` inside
`convertJsonObjectToEvent`). -/
inductive DecodeError where
  | unresolvableType (typeName : String)
  | invalidUnmarshalNil
  | malformedPayload
  deriving DecidableEq

/-- The entries of the type switch in `convertJsonObjectToEvent` that are
resolved from `typeName` alone (i.e. every case except `notice.notify`),
in source order; a Go switch on distinct string cases is equivalent to a
first-match lookup in this table. -/
def variantTable : List (String × VariantTag) :=
  [("message.private", .privateMessage),
   ("message.group", .groupMessage),
   ("notice.group_upload", .groupUpload),
   ("notice.group_admin", .groupAdmin),
   ("notice.group_decrease", .groupDecrease),
   ("notice.group_increase", .groupIncrease),
   ("notice.group_ban", .groupBan),
   ("notice.friend_add", .friendAdd),
   ("notice.group_recall", .groupRecall),
   ("notice.friend_recall", .friendRecall),
   ("request.friend", .friendRequest),
   ("request.group", .groupRequest),
   ("meta_event.lifecycle", .lifecycle),
   ("meta_event.heartbeat", .heartbeat)]

/-- The type switch of `convertJsonObjectToEvent`: maps the two-segment
`typeName` to the variant to allocate.  `notice.notify` consults `subType`;
its inner switch has no default branch, so an unknown sub type leaves the
interface value nil (`.ok none`).  An unknown `typeName` hits the outer
default branch, which panics with the offending type name. -/
def selectVariant (typeName subType : String) : Except DecodeError (Option VariantTag) :=
  if typeName = "notice.notify" then
    if subType = "poke" then .ok (some .poke)
    else if subType = "lucky_king" then .ok (some .luckyKing)
    else if subType = "honor" then .ok (some .honor)
    else .ok none
  else
    match variantTable.lookup typeName with
    | some tag => .ok (some tag)
    | none => .error (.unresolvableType typeName)

/-- The enrichment step: `setEventField(ev, "EventName", fullTypeName)`,
then `setEventField(ev, "ToMe", true)` when `isEventRelativeToBot(ev)`. -/
def enrichEvent (ev : I_Event) (fullTypeName : String) : I_Event :=
  let ev1 := setEventNameField ev fullTypeName
  if isEventRelativeToBot ev1 then setToMeField ev1 true else ev1

/-- The decode pipeline `convertJsonObjectToEvent`: resolve the variant
from the discriminators, unmarshal the payload into the variant's struct
(a nil interface target fails as Go's `json: Unmarshal(nil)`; a field type
mismatch fails as an `UnmarshalTypeError`), then enrich the decoded value.
Each Go `panic` is an `Except.error`. -/
def convertJsonObjectToEvent (obj : Json) : Except DecodeError I_Event :=
  match selectVariant (resolvedTypeName obj) (resolvedSubType obj) with
  | .error e => .error e
  | .ok none => .error .invalidUnmarshalNil
  | .ok (some tag) =>
    if checkFields (schemaOf tag) obj then
      .ok (enrichEvent (buildVariant tag obj) (resolvedFullTypeName obj))
    else .error .malformedPayload

/-- `MessageEvent.GetSessionId`: `fmt.Sprintf("%d", e.UserId)`. -/
def MessageEvent.GetSessionId (e : MessageEvent) : String :=
  intDecimal e.UserId

/-- `PrivateMessageEvent` inherits `GetSessionId` from the embedded
`MessageEvent` (Go method promotion). -/
def PrivateMessageEvent.GetSessionId (e : PrivateMessageEvent) : String :=
  e.toMessageEvent.GetSessionId

/-- `GroupMessageEvent.GetSessionId`: `fmt.Sprintf("%d@%d", e.UserId, e.GroupId)`. -/
def GroupMessageEvent.GetSessionId (e : GroupMessageEvent) : String :=
  intDecimal e.UserId ++ "@" ++ intDecimal e.GroupId

/-- `strings.Replace(msg, "\n", "\\n", -1)`: every newline becomes the
two-character sequence backslash-`n`. -/
def escapeNewlines (s : String) : String :=
  String.mk (s.data.flatMap fun c => if c = '\n' then ['\\', 'n'] else [c])

/-- The message-preview truncation shared by both description formatters:
on more than 100 runes, keep the first 50 and last 50 with an elision
marker carrying the omitted-rune count. -/
def truncateContent (msg : String) : String :=
  if msg.data.length > 100 then
    String.mk (msg.data.take 50) ++ "...(省略" ++ intDecimal (msg.data.length - 100) ++
      "个字符)..." ++ String.mk (msg.data.drop (msg.data.length - 50))
  else msg

/-- `PrivateMessageEvent.GetEventDescription`. -/
def PrivateMessageEvent.GetEventDescription (e : PrivateMessageEvent) : String :=
  "[私聊消息](#" ++ intDecimal e.MessageId ++ " 来自" ++ intDecimal e.UserId ++ "): " ++
    escapeNewlines (truncateContent e.Message.String)

/-- `GroupMessageEvent.GetEventDescription`. -/
def GroupMessageEvent.GetEventDescription (e : GroupMessageEvent) : String :=
  "[群聊消息](#" ++ intDecimal e.MessageId ++ " 来自" ++ intDecimal e.UserId ++ "@群" ++
    intDecimal e.GroupId ++ "): " ++ escapeNewlines (truncateContent e.Message.String)

/-- Case-normalization of a payload key (used to state "any-cased variants"
of a key name). -/
def lowercaseKey (s : String) : String :=
  String.mk (s.data.map Char.toLower)

/-- The switch key that selects a variant (`notice.notify` for the three
sub-type-disambiguated notices). -/
def variantKey : VariantTag → String
  | .privateMessage => "message.private"
  | .groupMessage => "message.group"
  | .groupUpload => "notice.group_upload"
  | .groupAdmin => "notice.group_admin"
  | .groupDecrease => "notice.group_decrease"
  | .groupIncrease => "notice.group_increase"
  | .groupBan => "notice.group_ban"
  | .friendAdd => "notice.friend_add"
  | .groupRecall => "notice.group_recall"
  | .friendRecall => "notice.friend_recall"
  | .poke => "notice.notify"
  | .luckyKing => "notice.notify"
  | .honor => "notice.notify"
  | .friendRequest => "request.friend"
  | .groupRequest => "request.group"
  | .lifecycle => "meta_event.lifecycle"
  | .heartbeat => "meta_event.heartbeat"

/-- Spec-side condition (following the claim's words): the decoded variants
for which the enricher must set `toMe`, with their field conditions. -/
def specToMeCondition : I_Event → Bool
  | .privateMessage _ => true
  | .groupMessage e => e.Message.atOrRepliesTo e.SelfId
  | .groupDecrease e => e.UserId == e.SelfId
  | .poke e => e.TargetId == e.SelfId
  | .friendAdd _ => true
  | .friendRequest _ => true
  | .groupRequest _ => true
  | _ => false

/-- Spec-side notion (following the claim's words): a JSON value whose type
is incompatible with the target field's type — e.g. a string where an
integer is expected.  (`null` and absence are compatible with everything;
the opaque message value accepts anything.) -/
def jsonTypeIncompatible : FieldTy → Json → Bool
  | _, .null => false
  | .int, .num _ => false
  | .int, _ => true
  | .str, .str _ => false
  | .str, _ => true
  | .bool, .bool _ => false
  | .bool, _ => true
  | .msg, _ => false
  | .obj _, .obj _ => false
  | .obj _, _ => true

/-- Spec-side notion (following the claim's words): the payload contains a
field (of the resolved variant's schema) whose JSON type is incompatible
with the target field's type. -/
def payloadHasTypeIncompatibleField (sch : List (String × FieldTy)) (p : Json) : Bool :=
  sch.any fun kt =>
    match jget p kt.1 with
    | some v => jsonTypeIncompatible kt.2 v
    | none => false

def pmSessionA : PrivateMessageEvent :=
  { toMessageEvent :=
    { toEvent := { Time := 1, SelfId := 9, PostType := "message", EventName := "", ToMe := false },
      MessageType := "private", SubType := "friend", MessageId := 10, UserId := 5,
      Message := { content := "a", atOrReplyTargets := [] }, RawMessage := "a", Font := 0 },
    Sender := none }

def pmSessionB : PrivateMessageEvent :=
  { toMessageEvent :=
    { toEvent := { Time := 2, SelfId := 9, PostType := "message", EventName := "", ToMe := false },
      MessageType := "private", SubType := "friend", MessageId := 11, UserId := 5,
      Message := { content := "b", atOrReplyTargets := [] }, RawMessage := "b", Font := 0 },
    Sender := none }

def gmSessionA : GroupMessageEvent :=
  { toMessageEvent :=
    { toEvent := { Time := 1, SelfId := 9, PostType := "message", EventName := "", ToMe := false },
      MessageType := "group", SubType := "normal", MessageId := 12, UserId := 5,
      Message := { content := "a", atOrReplyTargets := [] }, RawMessage := "a", Font := 0 },
    GroupId := 77, Sender := none, Anonymous := none }

def gmSessionB : GroupMessageEvent :=
  { toMessageEvent :=
    { toEvent := { Time := 2, SelfId := 9, PostType := "message", EventName := "", ToMe := false },
      MessageType := "group", SubType := "normal", MessageId := 13, UserId := 5,
      Message := { content := "b", atOrReplyTargets := [] }, RawMessage := "b", Font := 0 },
    GroupId := 77, Sender := none, Anonymous := none }

def pmLongContent : PrivateMessageEvent :=
  { toMessageEvent :=
    { toEvent := { Time := 1, SelfId := 9, PostType := "message", EventName := "", ToMe := false },
      MessageType := "private", SubType := "friend", MessageId := 10, UserId := 5,
      Message := { content := String.mk (List.replicate 200 'a'), atOrReplyTargets := [] },
      RawMessage := "", Font := 0 },
    Sender := none }

def gmLongContent : GroupMessageEvent :=
  { toMessageEvent :=
    { toEvent := { Time := 1, SelfId := 9, PostType := "message", EventName := "", ToMe := false },
      MessageType := "group", SubType := "normal", MessageId := 12, UserId := 5,
      Message := { content := String.mk (List.replicate 200 'b'), atOrReplyTargets := [] },
      RawMessage := "", Font := 0 },
    GroupId := 77, Sender := none, Anonymous := none }

def cexDotSubPayload : Json :=
  .obj [("post_type", .str "message"), ("message_type", .str "private"),
    ("sub_type", .str "a.b"), ("time", .num 1), ("self_id", .num 9),
    ("user_id", .num 2), ("message_id", .num 3), ("message", .str "x")]

def c1ExamplePayload : Json :=
  .obj [("post_type", .str "message"), ("message_type", .str "private"),
    ("time", .num 100), ("self_id", .num 1), ("user_id", .num 2),
    ("message_id", .num 5), ("message", .str "hi")]

def cexNotifyPayload : Json :=
  .obj [("post_type", .str "notice"), ("notice_type", .str "notify"),
    ("sub_type", .str "unknown_sub"), ("self_id", .num 1)]

def oraclePayload : Json :=
  .obj [("post_type", .str "oracle"), ("self_id", .num 1)]

/-- The variant the resolver chooses for a payload, if any (`none` both
when resolution panics and when the `notice.notify` inner switch falls
through). -/
def chosenVariant (p : Json) : Option VariantTag :=
  match selectVariant (resolvedTypeName p) (resolvedSubType p) with
  | .ok o => o
  | .error _ => none

def adminSubTypePayload : Json :=
  .obj [("post_type", .str "notice"), ("notice_type", .str "group_admin"),
    ("sub_type", .str "set"), ("group_id", .num 7), ("user_id", .num 5),
    ("self_id", .num 1)]

def mismatchPayload : Json :=
  .obj [("post_type", .str "message"), ("message_type", .str "private"),
    ("user_id", .str "abc"), ("self_id", .num 1)]

def privToMePayload : Json :=
  .obj [("post_type", .str "message"), ("message_type", .str "private"),
    ("time", .num 100), ("self_id", .num 1), ("user_id", .num 2),
    ("message_id", .num 5), ("message", .str "hi")]

def groupNoMentionPayload : Json :=
  .obj [("post_type", .str "message"), ("message_type", .str "group"),
    ("time", .num 100), ("self_id", .num 1), ("user_id", .num 2),
    ("message_id", .num 6), ("group_id", .num 42), ("message", .str "hi")]

/-- The variant a concrete event value belongs to. -/
def ctorTag : I_Event → VariantTag
  | .privateMessage _ => .privateMessage
  | .groupMessage _ => .groupMessage
  | .groupUpload _ => .groupUpload
  | .groupAdmin _ => .groupAdmin
  | .groupDecrease _ => .groupDecrease
  | .groupIncrease _ => .groupIncrease
  | .groupBan _ => .groupBan
  | .friendAdd _ => .friendAdd
  | .groupRecall _ => .groupRecall
  | .friendRecall _ => .friendRecall
  | .poke _ => .poke
  | .luckyKing _ => .luckyKing
  | .honor _ => .honor
  | .friendRequest _ => .friendRequest
  | .groupRequest _ => .groupRequest
  | .lifecycle _ => .lifecycle
  | .heartbeat _ => .heartbeat

def groupNoSenderPayload : Json :=
  .obj [("post_type", .str "message"), ("message_type", .str "group"),
    ("time", .num 1), ("self_id", .num 1), ("user_id", .num 2),
    ("message_id", .num 6), ("group_id", .num 42), ("message", .str "hi")]

def groupEmptySenderPayload : Json :=
  .obj [("post_type", .str "message"), ("message_type", .str "group"),
    ("time", .num 1), ("self_id", .num 1), ("user_id", .num 2),
    ("message_id", .num 6), ("group_id", .num 42), ("message", .str "hi"),
    ("sender", .obj []), ("anonymous", .obj [("id", .num 3)])]

def spoofBasePayload : Json :=
  .obj [("post_type", .str "message"), ("message_type", .str "private"),
    ("time", .num 100), ("self_id", .num 1), ("user_id", .num 2),
    ("message_id", .num 5), ("message", .str "hi")]

/-- A `DecidableEq` instance for decode results, so that concrete runs of
the pipeline can be settled by `decide`. -/
instance {ε α : Type} [DecidableEq ε] [DecidableEq α] : DecidableEq (Except ε α) := fun a b =>
  match a, b with
  | .ok x, .ok y =>
    if h : x = y then .isTrue (by rw [h]) else .isFalse (fun he => h (by injection he))
  | .error x, .error y =>
    if h : x = y then .isTrue (by rw [h]) else .isFalse (fun he => h (by injection he))
  | .ok _, .error _ => .isFalse (fun he => by injection he)
  | .error _, .ok _ => .isFalse (fun he => by injection he)

theorem string_data_inj {s t : String} (h : s.data = t.data) : s = t :=
  congrArg String.mk h

/-- Splitting a character-list concatenation at a character that occurs in
neither left part is unambiguous. -/
theorem append_cons_inj {c : Char} :
    ∀ {l₁ l₂ r₁ r₂ : List Char}, l₁ ++ c :: r₁ = l₂ ++ c :: r₂ → c ∉ l₁ → c ∉ l₂ →
      l₁ = l₂ ∧ r₁ = r₂ := by
  intro l₁
  induction l₁ with
  | nil =>
    intro l₂ r₁ r₂ h _ h₂
    cases l₂ with
    | nil => simpa using h
    | cons b t =>
      simp only [List.nil_append, List.cons_append, List.cons.injEq] at h
      exact absurd (h.1 ▸ List.mem_cons_self b t) h₂
  | cons a t ih =>
    intro l₂ r₁ r₂ h h₁ h₂
    cases l₂ with
    | nil =>
      simp only [List.nil_append, List.cons_append, List.cons.injEq] at h
      exact absurd (h.1.symm ▸ List.mem_cons_self a t) h₁
    | cons b t' =>
      simp only [List.cons_append, List.cons.injEq] at h
      have ht := ih h.2 (fun hm => h₁ (List.mem_cons_of_mem a hm))
        (fun hm => h₂ (List.mem_cons_of_mem b hm))
      exact ⟨by rw [h.1, ht.1], ht.2⟩

/-- Splitting a string at a `"."` is unambiguous when the reference parts
are dot-free; the left unknown part is then dot-free as well. -/
theorem dot_split {s t u v : String} (h : s ++ "." ++ t = u ++ "." ++ v)
    (hu : '.' ∉ u.data) (hv : '.' ∉ v.data) : s = u ∧ t = v := by
  have hd : s.data ++ '.' :: t.data = u.data ++ '.' :: v.data := by
    have := congrArg String.data h
    simpa [String.data_append] using this
  have hs : '.' ∉ s.data := by
    intro hmem
    have hc := congrArg (List.count '.') hd
    simp only [List.count_append, List.count_cons_self] at hc
    have h0u : u.data.count '.' = 0 := List.count_eq_zero.mpr hu
    have h0v : v.data.count '.' = 0 := List.count_eq_zero.mpr hv
    have hpos : 0 < s.data.count '.' := List.count_pos_iff.mpr hmem
    omega
  have := append_cons_inj hd hs hu
  exact ⟨string_data_inj this.1, string_data_inj this.2⟩

theorem natDecAux_eq_digits : ∀ (fuel n : Nat), n ≤ fuel →
    natDecAux fuel n = ((Nat.digits 10 n).map Nat.digitChar).reverse := by
  intro fuel
  induction fuel with
  | zero =>
    intro n hn
    have : n = 0 := by omega
    subst this
    simp [natDecAux]
  | succ f ih =>
    intro n hn
    by_cases h0 : n = 0
    · subst h0; simp [natDecAux]
    · have hpos : 0 < n := Nat.pos_of_ne_zero h0
      have hdiv : n / 10 ≤ f := by
        have := Nat.div_lt_self hpos (by norm_num : 1 < 10)
        omega
      rw [show natDecAux (f + 1) n = natDecAux f (n / 10) ++ [Nat.digitChar (n % 10)] by
          simp [natDecAux, h0]]
      rw [ih _ hdiv, Nat.digits_def' (by norm_num : 1 < 10) hpos]
      simp

theorem natDecimal_digit_chars {n : Nat} :
    ∀ c ∈ (natDecimal n).data, ∃ d, d < 10 ∧ c = Nat.digitChar d := by
  intro c hc
  unfold natDecimal at hc
  by_cases h0 : n = 0
  · subst h0
    simp at hc
    exact ⟨0, by norm_num, by rw [hc]; rfl⟩
  · rw [if_neg h0, natDecAux_eq_digits n n le_rfl] at hc
    simp only [String.data] at hc
    rw [List.mem_reverse, List.mem_map] at hc
    obtain ⟨d, hd, rfl⟩ := hc
    exact ⟨d, Nat.digits_lt_base (by norm_num) hd, rfl⟩

theorem natDecimal_no_at {n : Nat} : '@' ∉ (natDecimal n).data := by
  intro h
  obtain ⟨d, hd, he⟩ := natDecimal_digit_chars _ h
  have : ∀ d, d < 10 → Nat.digitChar d ≠ '@' := by decide
  exact this d hd he.symm

theorem natDecimal_no_dash {n : Nat} : '-' ∉ (natDecimal n).data := by
  intro h
  obtain ⟨d, hd, he⟩ := natDecimal_digit_chars _ h
  have : ∀ d, d < 10 → Nat.digitChar d ≠ '-' := by decide
  exact this d hd he.symm

theorem map_digitChar_inj : ∀ (l₁ l₂ : List Nat), (∀ d ∈ l₁, d < 10) → (∀ d ∈ l₂, d < 10) →
    l₁.map Nat.digitChar = l₂.map Nat.digitChar → l₁ = l₂ := by
  intro l₁
  induction l₁ with
  | nil => intro l₂ _ _ h; cases l₂ <;> simp_all
  | cons a t ih =>
    intro l₂ h₁ h₂ h
    cases l₂ with
    | nil => simp at h
    | cons b t' =>
      simp only [List.map_cons, List.cons.injEq] at h
      have hab : a = b := by
        have hd : ∀ x, x < 10 → ∀ y, y < 10 → Nat.digitChar x = Nat.digitChar y → x = y := by
          decide
        exact hd a (h₁ a (List.mem_cons_self a t)) b (h₂ b (List.mem_cons_self b t')) h.1
      have := ih t' (fun d hd => h₁ d (List.mem_cons_of_mem a hd))
        (fun d hd => h₂ d (List.mem_cons_of_mem b hd)) h.2
      rw [hab, this]

theorem natDecimal_inj {n m : Nat} (h : natDecimal n = natDecimal m) : n = m := by
  have hd := congrArg String.data h
  unfold natDecimal at hd
  by_cases h0 : n = 0 <;> by_cases h1 : m = 0
  · omega
  · exfalso
    subst h0
    rw [if_pos rfl, if_neg h1, natDecAux_eq_digits m m le_rfl] at hd
    simp only [String.data] at hd
    have hm : (Nat.digits 10 m).map Nat.digitChar = ['0'] := by
      have := congrArg List.reverse hd
      simpa using this.symm
    obtain ⟨d, hdig⟩ : ∃ d, Nat.digits 10 m = [d] := by
      cases hds : Nat.digits 10 m with
      | nil => rw [hds] at hm; simp at hm
      | cons x xs =>
        rw [hds] at hm
        cases xs with
        | nil => exact ⟨x, rfl⟩
        | cons y ys => simp at hm
    have hdval : Nat.digitChar d = '0' := by rw [hdig] at hm; simpa using hm
    have hdlt : d < 10 := Nat.digits_lt_base (by norm_num) (by rw [hdig]; simp)
    have hd0 : d = 0 := by
      have : ∀ x, x < 10 → Nat.digitChar x = '0' → x = 0 := by decide
      exact this d hdlt hdval
    have := Nat.ofDigits_digits 10 m
    rw [hdig, hd0] at this
    simp [Nat.ofDigits] at this
    exact h1 this.symm
  · exfalso
    subst h1
    rw [if_pos rfl, if_neg h0, natDecAux_eq_digits n n le_rfl] at hd
    simp only [String.data] at hd
    have hm : (Nat.digits 10 n).map Nat.digitChar = ['0'] := by
      have := congrArg List.reverse hd
      simpa using this
    obtain ⟨d, hdig⟩ : ∃ d, Nat.digits 10 n = [d] := by
      cases hds : Nat.digits 10 n with
      | nil => rw [hds] at hm; simp at hm
      | cons x xs =>
        rw [hds] at hm
        cases xs with
        | nil => exact ⟨x, rfl⟩
        | cons y ys => simp at hm
    have hdval : Nat.digitChar d = '0' := by rw [hdig] at hm; simpa using hm
    have hdlt : d < 10 := Nat.digits_lt_base (by norm_num) (by rw [hdig]; simp)
    have hd0 : d = 0 := by
      have : ∀ x, x < 10 → Nat.digitChar x = '0' → x = 0 := by decide
      exact this d hdlt hdval
    have := Nat.ofDigits_digits 10 n
    rw [hdig, hd0] at this
    simp [Nat.ofDigits] at this
    exact h0 this.symm
  · rw [if_neg h0, if_neg h1, natDecAux_eq_digits n n le_rfl,
      natDecAux_eq_digits m m le_rfl] at hd
    simp only [String.data] at hd
    have hmap := congrArg List.reverse hd
    simp only [List.reverse_reverse] at hmap
    have := map_digitChar_inj _ _ (fun d hd => Nat.digits_lt_base (by norm_num) hd)
      (fun d hd => Nat.digits_lt_base (by norm_num) hd) hmap
    have h2 := congrArg (Nat.ofDigits 10) this
    rwa [Nat.ofDigits_digits, Nat.ofDigits_digits] at h2

theorem intDecimal_chars {i : Int} :
    ∀ c ∈ (intDecimal i).data, c = '-' ∨ ∃ d, d < 10 ∧ c = Nat.digitChar d := by
  intro c hc
  cases i with
  | ofNat n => exact .inr (natDecimal_digit_chars c hc)
  | negSucc n =>
    simp only [intDecimal, String.data_append] at hc
    rcases List.mem_append.mp hc with h | h
    · left; simpa using h
    · exact .inr (natDecimal_digit_chars c h)

theorem intDecimal_no_at {i : Int} : '@' ∉ (intDecimal i).data := by
  intro h
  rcases intDecimal_chars _ h with h1 | ⟨d, hd, he⟩
  · exact (by decide : ('@' : Char) ≠ '-') h1
  · exact (by decide : ∀ d, d < 10 → Nat.digitChar d ≠ '@') d hd he.symm

theorem intDecimal_inj {i j : Int} (h : intDecimal i = intDecimal j) : i = j := by
  cases i with
  | ofNat n =>
    cases j with
    | ofNat m => exact congrArg Int.ofNat (natDecimal_inj h)
    | negSucc m =>
      exfalso
      have hd := congrArg String.data h
      simp only [intDecimal, String.data_append] at hd
      have : '-' ∈ (natDecimal n).data := by
        rw [hd]
        simp [show ("-" : String).data = ['-'] from rfl]
      exact natDecimal_no_dash this
  | negSucc n =>
    cases j with
    | ofNat m =>
      exfalso
      have hd := congrArg String.data h
      simp only [intDecimal, String.data_append] at hd
      have : '-' ∈ (natDecimal m).data := by
        rw [← hd]
        simp [show ("-" : String).data = ['-'] from rfl]
      exact natDecimal_no_dash this
    | negSucc m =>
      have hd := congrArg String.data h
      simp only [intDecimal, String.data_append,
        show ("-" : String).data = ['-'] from rfl] at hd
      simp only [List.singleton_append, List.cons.injEq, true_and] at hd
      have := natDecimal_inj (string_data_inj hd)
      have hnm : n = m := by omega
      rw [hnm]

theorem lookup_setEntry_ne {fs : List (String × Json)} {k k' : String} {v : Json}
    (h : k' ≠ k) : (setEntry fs k v).lookup k' = fs.lookup k' := by
  induction fs with
  | nil =>
    simp only [setEntry, List.lookup]
    rw [show (k' == k) = false by simp [h]]
  | cons a rest ih =>
    obtain ⟨ka, va⟩ := a
    simp only [setEntry]
    by_cases hk : ka = k
    · rw [if_pos hk]
      simp only [List.lookup]
      rw [show (k' == k) = false by simp [h], show (k' == ka) = false by simp [hk ▸ h]]
    · rw [if_neg hk]
      simp only [List.lookup]
      cases hka : k' == ka
      · simp only [ih]
      · rfl

/-- Adding or changing one key of a payload leaves every other key's lookup
unchanged. -/
theorem jget_setKey_ne {p : Json} {k k' : String} {v : Json} (h : k' ≠ k) :
    jget (setKey p k v) k' = jget p k' := by
  cases p <;> simp only [setKey, jget]
  exact lookup_setEntry_ne h

theorem lowercaseKey_append (a b : String) :
    lowercaseKey (a ++ b) = lowercaseKey a ++ lowercaseKey b := by
  cases a; cases b
  simp [lowercaseKey, String.data_append]
  rfl

/-- A key whose lowercase form is `eventname` or `tome` differs from any
key that is already lowercase and is neither of those names. -/
theorem ne_key {k : String}
    (h : lowercaseKey k = "eventname" ∨ lowercaseKey k = "tome") (s : String)
    (hs : lowercaseKey s = s ∧ s ≠ "eventname" ∧ s ≠ "tome") : k ≠ s := by
  intro he
  subst he
  rcases h with h | h
  · exact hs.2.1 (hs.1 ▸ h)
  · exact hs.2.2 (hs.1 ▸ h)

/-- A key whose lowercase form is `eventname` or `tome` is never the
dynamically built second-discriminator key `<postType> + "_type"`. -/
theorem ne_dynamic_key {k : String}
    (h : lowercaseKey k = "eventname" ∨ lowercaseKey k = "tome") (x : String) :
    k ≠ x ++ "_type" := by
  intro he
  have hlow := congrArg lowercaseKey he
  rw [lowercaseKey_append] at hlow
  have htype : lowercaseKey "_type" = "_type" := by decide
  rw [htype] at hlow
  rcases h with h | h
  · rw [h] at hlow
    have hd := congrArg (fun s => s.data.reverse.take 5) hlow
    simp only [String.data_append, List.reverse_append] at hd
    rw [show (5 : Nat) = (("_type" : String).data.reverse).length from rfl, List.take_left] at hd
    exact absurd hd (by decide)
  · rw [h] at hlow
    have hd := congrArg (fun s => s.data.length) hlow
    simp [String.data_append] at hd

/-- Each concrete event component's dot-free decomposition: splitting a
string with exactly one dot into `s ++ "." ++ t` forces both parts to be
dot-free. -/
theorem split_parts_dotfree {s t w : String} (h : s ++ "." ++ t = w)
    (hw : w.data.count '.' = 1) : '.' ∉ s.data ∧ '.' ∉ t.data := by
  have hd : s.data ++ '.' :: t.data = w.data := by
    simpa [String.data_append] using congrArg String.data h
  have hc := congrArg (List.count '.') hd
  simp only [List.count_append, List.count_cons_self] at hc
  rw [hw] at hc
  constructor <;> rw [← List.count_eq_zero] <;> omega

theorem mem_of_lookup_eq_some {α β : Type} [BEq α] [LawfulBEq α] {l : List (α × β)}
    {a : α} {b : β} (h : l.lookup a = some b) : (a, b) ∈ l := by
  induction l with
  | nil => simp [List.lookup] at h
  | cons x rest ih =>
    obtain ⟨k, v⟩ := x
    simp only [List.lookup] at h
    cases hk : a == k with
    | true =>
      rw [hk] at h
      injection h with h'
      have : a = k := by simpa using hk
      rw [this, h']
      exact List.mem_cons_self _ _
    | false =>
      rw [hk] at h
      exact List.mem_cons_of_mem _ (ih h)

theorem lookup_eq_none_of_not_mem {α β : Type} [BEq α] [LawfulBEq α] {l : List (α × β)}
    {a : α} (h : ∀ kv ∈ l, kv.1 ≠ a) : l.lookup a = none := by
  induction l with
  | nil => rfl
  | cons x rest ih =>
    obtain ⟨k, v⟩ := x
    simp only [List.lookup]
    rw [show (a == k) = false by simp; exact fun he => h (k, v) (List.mem_cons_self _ _) he.symm]
    exact ih fun kv hm => h kv (List.mem_cons_of_mem _ hm)

theorem selectVariant_ok_key {t s : String} {tag : VariantTag}
    (h : selectVariant t s = .ok (some tag)) : t = variantKey tag := by
  unfold selectVariant at h
  by_cases hn : t = "notice.notify"
  · rw [if_pos hn] at h
    subst hn
    by_cases h1 : s = "poke"
    · rw [if_pos h1] at h
      injection h with h'; injection h' with h''; rw [← h'']; rfl
    · rw [if_neg h1] at h
      by_cases h2 : s = "lucky_king"
      · rw [if_pos h2] at h
        injection h with h'; injection h' with h''; rw [← h'']; rfl
      · rw [if_neg h2] at h
        by_cases h3 : s = "honor"
        · rw [if_pos h3] at h
          injection h with h'; injection h' with h''; rw [← h'']; rfl
        · rw [if_neg h3] at h
          exact absurd h (by simp)
  · rw [if_neg hn] at h
    cases hl : variantTable.lookup t with
    | none => rw [hl] at h; exact absurd h (by simp)
    | some tag' =>
      rw [hl] at h
      injection h with h'; injection h' with h''
      subst h''
      have hm := mem_of_lookup_eq_some hl
      fin_cases hm <;> rfl

theorem variantKey_count (tag : VariantTag) : (variantKey tag).data.count '.' = 1 := by
  cases tag <;> decide

theorem convert_ok_elim {p : Json} {ev : I_Event}
    (h : convertJsonObjectToEvent p = .ok ev) :
    ∃ tag, selectVariant (resolvedTypeName p) (resolvedSubType p) = .ok (some tag) ∧
      checkFields (schemaOf tag) p = true ∧
      ev = enrichEvent (buildVariant tag p) (resolvedFullTypeName p) := by
  unfold convertJsonObjectToEvent at h
  cases hs : selectVariant (resolvedTypeName p) (resolvedSubType p) with
  | error e => rw [hs] at h; exact absurd h (by simp)
  | ok o =>
    cases o with
    | none => rw [hs] at h; exact absurd h (by simp)
    | some tag =>
      rw [hs] at h
      have h2 : (if checkFields (schemaOf tag) p = true then
          Except.ok (enrichEvent (buildVariant tag p) (resolvedFullTypeName p))
        else (Except.error DecodeError.malformedPayload : Except DecodeError I_Event)) =
          Except.ok ev := h
      by_cases hc : checkFields (schemaOf tag) p = true
      · rw [if_pos hc] at h2
        exact ⟨tag, rfl, hc, (Except.ok.injEq _ _ ▸ h2).symm⟩
      · rw [if_neg hc] at h2
        exact absurd h2 (by simp)

theorem checkFields_mem {sch : List (String × FieldTy)} {p : Json} {k : String} {ty : FieldTy}
    (hc : checkFields sch p = true) (hmem : (k, ty) ∈ sch) :
    checkField ty (jget p k) = true := by
  rw [checkFields, List.all_eq_true] at hc
  exact hc (k, ty) hmem

theorem gstring_eq_dStrVal_of_check {o : Option Json} (h : checkField .str o = true) :
    gstring o = dStrVal o := by
  match o with
  | none => rfl
  | some .null => rfl
  | some (.str s) => rfl
  | some (.bool b) => simp [checkField] at h
  | some (.num n) => simp [checkField] at h
  | some (.arr xs) => simp [checkField] at h
  | some (.obj fs) => simp [checkField] at h

theorem base_mapBase (f : Event → Event) (ev : I_Event) :
    (ev.mapBase f).base = f ev.base := by
  cases ev <;> rfl

theorem isRel_setEventName (ev : I_Event) (f : String) :
    isEventRelativeToBot (setEventNameField ev f) = isEventRelativeToBot ev := by
  cases ev <;> rfl

theorem getEventName_enrich (ev : I_Event) (f : String) :
    (enrichEvent ev f).GetEventName = f := by
  unfold enrichEvent
  by_cases h : isEventRelativeToBot (setEventNameField ev f)
  · rw [if_pos h]; cases ev <;> rfl
  · rw [if_neg h]; cases ev <;> rfl

theorem isToMe_enrich (ev : I_Event) (f : String) (hev : ev.IsToMe = false) :
    (enrichEvent ev f).IsToMe = isEventRelativeToBot ev := by
  unfold enrichEvent
  by_cases h : isEventRelativeToBot (setEventNameField ev f)
  · rw [if_pos h]
    have h1 : (setToMeField (setEventNameField ev f) true).IsToMe = true := by
      cases ev <;> rfl
    rw [h1, ← isRel_setEventName ev f, h]
  · rw [if_neg h]
    have h1 : (setEventNameField ev f).IsToMe = ev.IsToMe := by cases ev <;> rfl
    simp only [Bool.not_eq_true] at h
    rw [h1, hev, ← isRel_setEventName ev f, h]

theorem buildVariant_toMe_false (tag : VariantTag) (p : Json) :
    (buildVariant tag p).IsToMe = false := by
  cases tag <;> rfl

theorem postType_enrich (ev : I_Event) (f : String) :
    (enrichEvent ev f).base.PostType = ev.base.PostType := by
  unfold enrichEvent
  by_cases h : isEventRelativeToBot (setEventNameField ev f)
  · rw [if_pos h]; cases ev <;> rfl
  · rw [if_neg h]; cases ev <;> rfl

theorem buildVariant_postType (tag : VariantTag) (p : Json) :
    (buildVariant tag p).base.PostType = dStr p "post_type" := by
  cases tag <;> rfl

/-- C4: for every private message event `GetSessionId` is the decimal
string of `UserId` alone; for every group message event it is
`"<UserId>@<GroupId>"`; and two session keys coincide only for the same
user in a DM, or the same user in the same group (never across the two
kinds). -/
theorem getSessionId_keys :
    (∀ e : PrivateMessageEvent, e.GetSessionId = intDecimal e.UserId) ∧
    (∀ g : GroupMessageEvent,
      g.GetSessionId = intDecimal g.UserId ++ "@" ++ intDecimal g.GroupId) ∧
    (∀ e₁ e₂ : PrivateMessageEvent,
      e₁.GetSessionId = e₂.GetSessionId → e₁.UserId = e₂.UserId) ∧
    (∀ g₁ g₂ : GroupMessageEvent,
      g₁.GetSessionId = g₂.GetSessionId → g₁.UserId = g₂.UserId ∧ g₁.GroupId = g₂.GroupId) ∧
    (∀ e : PrivateMessageEvent, ∀ g : GroupMessageEvent,
      e.GetSessionId ≠ g.GetSessionId) := by
  refine ⟨fun e => rfl, fun g => rfl, ?_, ?_, ?_⟩
  · intro e₁ e₂ h
    exact intDecimal_inj h
  · intro g₁ g₂ h
    unfold GroupMessageEvent.GetSessionId at h
    have hd : (intDecimal g₁.UserId).data ++ '@' :: (intDecimal g₁.GroupId).data =
        (intDecimal g₂.UserId).data ++ '@' :: (intDecimal g₂.GroupId).data := by
      simpa [String.data_append] using congrArg String.data h
    have := append_cons_inj hd intDecimal_no_at intDecimal_no_at
    exact ⟨intDecimal_inj (string_data_inj this.1), intDecimal_inj (string_data_inj this.2)⟩
  · intro e g h
    unfold PrivateMessageEvent.GetSessionId MessageEvent.GetSessionId
      GroupMessageEvent.GetSessionId at h
    have : '@' ∈ (intDecimal e.UserId).data := by
      rw [h]
      simp [String.data_append]
    exact intDecimal_no_at this

/-- C4 witness: concrete session-key coincidences decided through the
theorem. -/
theorem getSessionId_keys_witness :
    pmSessionA.UserId = pmSessionB.UserId ∧
    (gmSessionA.UserId = gmSessionB.UserId ∧ gmSessionA.GroupId = gmSessionB.GroupId) :=
  ⟨getSessionId_keys.2.2.1 pmSessionA pmSessionB (by decide),
   getSessionId_keys.2.2.2.1 gmSessionA gmSessionB (by decide)⟩

/-- C7: on content longer than 100 characters, both message descriptions
render the content as its first 50 characters, an elision marker carrying
the omitted-character count (length minus 100), and its last 50 characters,
with every newline of the rendered content escaped to backslash-n; the kept
pieces really are a 50-character prefix and a 50-character suffix of the
content. -/
theorem getEventDescription_truncates_long :
    (∀ e : PrivateMessageEvent, 100 < (e.Message.String).data.length →
      (e.GetEventDescription =
        "[私聊消息](#" ++ intDecimal e.MessageId ++ " 来自" ++ intDecimal e.UserId ++ "): " ++
          escapeNewlines (String.mk ((e.Message.String).data.take 50) ++ "...(省略" ++
            intDecimal ((e.Message.String).data.length - 100) ++ "个字符)..." ++
            String.mk ((e.Message.String).data.drop ((e.Message.String).data.length - 50)))) ∧
      ((e.Message.String).data.take 50).length = 50 ∧
      ((e.Message.String).data.drop ((e.Message.String).data.length - 50)).length = 50 ∧
      (e.Message.String).data.take 50 <+: (e.Message.String).data ∧
      (e.Message.String).data.drop ((e.Message.String).data.length - 50) <:+
        (e.Message.String).data) ∧
    (∀ g : GroupMessageEvent, 100 < (g.Message.String).data.length →
      (g.GetEventDescription =
        "[群聊消息](#" ++ intDecimal g.MessageId ++ " 来自" ++ intDecimal g.UserId ++ "@群" ++
          intDecimal g.GroupId ++ "): " ++
          escapeNewlines (String.mk ((g.Message.String).data.take 50) ++ "...(省略" ++
            intDecimal ((g.Message.String).data.length - 100) ++ "个字符)..." ++
            String.mk ((g.Message.String).data.drop ((g.Message.String).data.length - 50)))) ∧
      ((g.Message.String).data.take 50).length = 50 ∧
      ((g.Message.String).data.drop ((g.Message.String).data.length - 50)).length = 50 ∧
      (g.Message.String).data.take 50 <+: (g.Message.String).data ∧
      (g.Message.String).data.drop ((g.Message.String).data.length - 50) <:+
        (g.Message.String).data) := by
  constructor
  · intro e h
    refine ⟨?_, ?_, ?_, List.take_prefix _ _, List.drop_suffix _ _⟩
    · unfold PrivateMessageEvent.GetEventDescription truncateContent
      rw [if_pos h]
    · rw [List.length_take]; omega
    · rw [List.length_drop]; omega
  · intro g h
    refine ⟨?_, ?_, ?_, List.take_prefix _ _, List.drop_suffix _ _⟩
    · unfold GroupMessageEvent.GetEventDescription truncateContent
      rw [if_pos h]
    · rw [List.length_take]; omega
    · rw [List.length_drop]; omega

set_option maxRecDepth 4000 in
/-- C7 witness: a 200-character message keeps a 50-character prefix and a
50-character suffix (elision count 100), decided through the theorem. -/
theorem getEventDescription_truncates_long_witness :
    (((pmLongContent.Message.String).data.take 50).length = 50 ∧
      intDecimal ((pmLongContent.Message.String).data.length - 100) = "100") ∧
    ((gmLongContent.Message.String).data.drop
      ((gmLongContent.Message.String).data.length - 50)).length = 50 :=
  ⟨⟨(getEventDescription_truncates_long.1 pmLongContent (by decide)).2.1, by decide⟩,
   (getEventDescription_truncates_long.2 gmLongContent (by decide)).2.2.1⟩

/-- C8: the description formatting is total and its truncation step is a
no-op on content of at most 100 characters — for every such content string
(including the empty string and strings shorter than 50 characters) the
description is the unmodified content with only newline escaping applied. -/
theorem getEventDescription_short_total :
    (∀ e : PrivateMessageEvent, (e.Message.String).data.length ≤ 100 →
      e.GetEventDescription =
        "[私聊消息](#" ++ intDecimal e.MessageId ++ " 来自" ++ intDecimal e.UserId ++ "): " ++
          escapeNewlines e.Message.String) ∧
    (∀ g : GroupMessageEvent, (g.Message.String).data.length ≤ 100 →
      g.GetEventDescription =
        "[群聊消息](#" ++ intDecimal g.MessageId ++ " 来自" ++ intDecimal g.UserId ++ "@群" ++
          intDecimal g.GroupId ++ "): " ++ escapeNewlines g.Message.String) ∧
    (∀ s : String, s.data.length ≤ 100 → truncateContent s = s) := by
  refine ⟨?_, ?_, ?_⟩
  · intro e h
    unfold PrivateMessageEvent.GetEventDescription truncateContent
    rw [if_neg (by omega)]
  · intro g h
    unfold GroupMessageEvent.GetEventDescription truncateContent
    rw [if_neg (by omega)]
  · intro s h
    unfold truncateContent
    rw [if_neg (by omega)]

/-- C8 witness: the truncation step leaves the empty string and a short
string unchanged, decided through the theorem. -/
theorem getEventDescription_short_total_witness :
    truncateContent "" = "" ∧ truncateContent "hi\n" = "hi\n" :=
  ⟨getEventDescription_short_total.2.2 "" (by decide),
   getEventDescription_short_total.2.2 "hi\n" (by decide)⟩

/-- C1 (amended): for every successfully decoded payload, `eventName`
equals `"<post_type>.<post_type_type>"` (with `".<sub_type>"` appended when
`sub_type` is present), its first dot-separated segment is the event's
`postType` (which is dot-free, as is the second discriminator), and its
dot count is 1 without `sub_type` and `2 + (dots inside sub_type)` with it
— so the name has exactly 2 segments without `sub_type`, and exactly 3
with it only when the `sub_type` value itself is dot-free. -/
theorem eventName_from_discriminators (p : Json) (ev : I_Event)
    (h : convertJsonObjectToEvent p = .ok ev) :
    (ev.GetEventName =
      if subTypePresent p then resolvedTypeName p ++ "." ++ resolvedSubType p
      else resolvedTypeName p) ∧
    ev.base.PostType = resolvedPostType p ∧
    '.' ∉ (resolvedPostType p).data ∧
    '.' ∉ (resolvedNextType p).data ∧
    (∃ rest, ev.GetEventName = ev.base.PostType ++ "." ++ rest) ∧
    ((ev.GetEventName).data.count '.' =
      if subTypePresent p then 2 + (resolvedSubType p).data.count '.' else 1) := by
  obtain ⟨tag, hsel, hchk, hev⟩ := convert_ok_elim h
  have key : resolvedPostType p ++ "." ++ resolvedNextType p = variantKey tag :=
    selectVariant_ok_key hsel
  have hdots := split_parts_dotfree key (variantKey_count tag)
  have hname : ev.GetEventName = resolvedFullTypeName p := by
    rw [hev]; exact getEventName_enrich _ _
  have hpost : ev.base.PostType = resolvedPostType p := by
    rw [hev, postType_enrich, buildVariant_postType]
    have hmem : ("post_type", FieldTy.str) ∈ schemaOf tag := by cases tag <;> decide
    have := gstring_eq_dStrVal_of_check (checkFields_mem hchk hmem)
    exact this.symm
  have hcnt1 : (resolvedTypeName p).data.count '.' = 1 := by
    have : (resolvedTypeName p).data.count '.' =
        (resolvedPostType p).data.count '.' + (resolvedNextType p).data.count '.' + 1 := by
      simp [resolvedTypeName, String.data_append, List.count_append,
        show (("." : String).data.count '.') = 1 from by decide]
      omega
    rw [this, List.count_eq_zero.mpr hdots.1, List.count_eq_zero.mpr hdots.2]
  refine ⟨by rw [hname]; rfl, hpost, hdots.1, hdots.2, ?_, ?_⟩
  · refine ⟨if subTypePresent p then resolvedNextType p ++ "." ++ resolvedSubType p
      else resolvedNextType p, ?_⟩
    rw [hname, hpost]
    unfold resolvedFullTypeName resolvedTypeName
    by_cases hs : subTypePresent p
    · rw [if_pos hs, if_pos hs]
      simp [String.append_assoc]
    · rw [if_neg hs, if_neg hs]
  · rw [hname]
    unfold resolvedFullTypeName
    by_cases hs : subTypePresent p
    · rw [if_pos hs, if_pos hs]
      have : (resolvedTypeName p ++ "." ++ resolvedSubType p).data.count '.' =
          (resolvedTypeName p).data.count '.' + (resolvedSubType p).data.count '.' + 1 := by
        simp [String.data_append, List.count_append,
          show (("." : String).data.count '.') = 1 from by decide]
        omega
      rw [this, hcnt1]
      omega
    · rw [if_neg hs, if_neg hs]
      exact hcnt1

/-- C1 counterexample: a decodable payload whose `sub_type` value `"a.b"`
contains a dot.  `sub_type` is present, yet the decoded `eventName`
(`"message.private.a.b"`) carries three dots, i.e. four dot-separated
segments — not the "3 exactly" the claim asserts for payloads with a
`sub_type` field. -/
theorem eventName_segments_cex :
    subTypePresent cexDotSubPayload = true ∧
    (convertJsonObjectToEvent cexDotSubPayload).toOption.map
      (fun ev => ((ev.GetEventName).data.count '.', ev.GetEventName)) =
      some (3, "message.private.a.b") := by
  constructor
  · decide
  · decide

/-- C1 witness: the spec's example private-message payload decodes with
event name `message.private` (one dot, two segments), decided through the
theorem. -/
theorem eventName_from_discriminators_witness :
    (convertJsonObjectToEvent c1ExamplePayload).toOption.map
      (fun ev => (ev.GetEventName, (ev.GetEventName).data.count '.')) =
      some ("message.private", 1) := by
  cases hc : convertJsonObjectToEvent c1ExamplePayload with
  | error e =>
    have hok : (convertJsonObjectToEvent c1ExamplePayload).isOk = true := by decide
    rw [hc] at hok
    exact absurd hok (by simp [Except.isOk, Except.toBool])
  | ok ev =>
    have h := eventName_from_discriminators c1ExamplePayload ev hc
    have h1 := h.1
    have h6 := h.2.2.2.2.2
    rw [show subTypePresent c1ExamplePayload = false from by decide] at h1 h6
    simp only [Except.toOption, Option.map]
    rw [show (if false = true then resolvedTypeName c1ExamplePayload ++ "." ++
        resolvedSubType c1ExamplePayload else resolvedTypeName c1ExamplePayload) =
        resolvedTypeName c1ExamplePayload from rfl] at h1
    rw [h1, show resolvedTypeName c1ExamplePayload = "message.private" from by decide]
    decide

/-- C2 (amended): an unknown two-segment `typeName` fails as an
UnresolvableType error carrying the offending `typeName`; an unknown
`notice.notify` `sub_type` leaves the variant unselected, so the decode
step fails on its nil target (Go's `json: Unmarshal(nil)`) — a failure
that does not carry the `typeName`.  In both cases the call returns a
failure and never a default or fallback event value. -/
theorem unknownType_failure (p : Json) :
    (variantTable.lookup (resolvedTypeName p) = none →
      resolvedTypeName p ≠ "notice.notify" →
      convertJsonObjectToEvent p = .error (.unresolvableType (resolvedTypeName p))) ∧
    (resolvedTypeName p = "notice.notify" →
      resolvedSubType p ∉ (["poke", "lucky_king", "honor"] : List String) →
      convertJsonObjectToEvent p = .error .invalidUnmarshalNil) := by
  constructor
  · intro hl hnn
    unfold convertJsonObjectToEvent
    rw [show selectVariant (resolvedTypeName p) (resolvedSubType p) =
        .error (.unresolvableType (resolvedTypeName p)) from by
      unfold selectVariant
      rw [if_neg hnn, hl]]
  · intro hn hs
    simp only [List.mem_cons, List.not_mem_nil, or_false, not_or] at hs
    unfold convertJsonObjectToEvent
    rw [show selectVariant (resolvedTypeName p) (resolvedSubType p) =
        .ok none from by
      unfold selectVariant
      rw [if_pos hn, if_neg hs.1, if_neg hs.2.1, if_neg hs.2.2]]

/-- C2 counterexample: for the payload with `post_type` `notice`,
`notice_type` `notify` and unknown `sub_type` `unknown_sub`, decoding fails
with the nil-target unmarshal error — not with an UnresolvableType failure
carrying the offending typeName `notice.notify` as the claim asserts. -/
theorem unknownType_failure_cex :
    convertJsonObjectToEvent cexNotifyPayload = .error .invalidUnmarshalNil ∧
    convertJsonObjectToEvent cexNotifyPayload ≠
      .error (.unresolvableType "notice.notify") := by
  constructor
  · decide
  · decide

/-- C2 witness: the unknown `post_type` `oracle` payload fails with an
UnresolvableType error carrying its typeName, and the unknown
`notice.notify` sub type fails with the nil-target unmarshal error, both
decided through the theorem. -/
theorem unknownType_failure_witness :
    convertJsonObjectToEvent oraclePayload = .error (.unresolvableType "oracle.") ∧
    convertJsonObjectToEvent cexNotifyPayload = .error .invalidUnmarshalNil :=
  ⟨((unknownType_failure oraclePayload).1 (by decide) (by decide)).trans (by decide),
   (unknownType_failure cexNotifyPayload).2 (by decide) (by decide)⟩

theorem selectVariant_ignores_subtype {t : String} (h : t ≠ "notice.notify")
    (s₁ s₂ : String) : selectVariant t s₁ = selectVariant t s₂ := by
  unfold selectVariant
  rw [if_neg h, if_neg h]

theorem selectVariant_s_head {t s : String} (h : t.data.head? = some 's') :
    selectVariant t s = .error (.unresolvableType t) := by
  unfold selectVariant
  rw [if_neg (fun he => by rw [he] at h; exact absurd h (by decide)),
    lookup_eq_none_of_not_mem ?_]
  intro kv hm he
  rw [← he] at h
  fin_cases hm <;> exact absurd h (by decide)

theorem append_type_ne {pt : String} (h : pt ≠ "sub") : pt ++ "_type" ≠ "sub_type" := by
  intro he
  have hd : pt.data ++ ("_type" : String).data = ("sub" : String).data ++ ("_type" : String).data := by
    have := congrArg String.data he
    rw [String.data_append] at this
    exact this
  exact h (string_data_inj (List.append_cancel_right hd))

/-- C5: for payloads identical except for the value or presence of
`sub_type`, whose two-segment `typeName` is not `notice.notify`, the
resolver chooses the same variant for both — `sub_type` never affects the
chosen variant shape. -/
theorem subType_not_in_variant_selection (p p' : Json)
    (hagree : ∀ k, k ≠ "sub_type" → jget p k = jget p' k)
    (h₁ : resolvedTypeName p ≠ "notice.notify") :
    chosenVariant p = chosenVariant p' := by
  have hpost : resolvedPostType p = resolvedPostType p' := by
    unfold resolvedPostType
    rw [hagree "post_type" (by decide)]
  by_cases hsub : resolvedPostType p = "sub"
  · have hhead : (resolvedTypeName p).data.head? = some 's' := by
      unfold resolvedTypeName
      rw [hsub]
      simp [String.data_append]
    have hhead' : (resolvedTypeName p').data.head? = some 's' := by
      unfold resolvedTypeName
      rw [← hpost, hsub]
      simp [String.data_append]
    unfold chosenVariant
    rw [selectVariant_s_head hhead, selectVariant_s_head hhead']
  · have hnext : resolvedNextType p = resolvedNextType p' := by
      unfold resolvedNextType
      rw [← hpost, hagree (resolvedPostType p ++ "_type") (append_type_ne hsub)]
    have htn : resolvedTypeName p = resolvedTypeName p' := by
      unfold resolvedTypeName
      rw [hpost, hnext]
    unfold chosenVariant
    rw [← htn, selectVariant_ignores_subtype h₁ (resolvedSubType p) (resolvedSubType p')]

/-- C5 witness: changing the `sub_type` of a `notice.group_admin` payload
leaves the chosen variant unchanged, decided through the theorem. -/
theorem subType_not_in_variant_selection_witness :
    chosenVariant adminSubTypePayload =
      chosenVariant (setKey adminSubTypePayload "sub_type" (.str "unset")) ∧
    chosenVariant adminSubTypePayload = some .groupAdmin :=
  ⟨subType_not_in_variant_selection adminSubTypePayload
      (setKey adminSubTypePayload "sub_type" (.str "unset"))
      (fun k hk => (jget_setKey_ne hk).symm) (by decide),
   by decide⟩

theorem incompatible_check_false {ty : FieldTy} {v : Json}
    (h : jsonTypeIncompatible ty v = true) : checkField ty (some v) = false := by
  cases ty <;> cases v <;> simp_all [jsonTypeIncompatible, checkField]

/-- C6: for every payload whose variant resolved but which carries a field
whose JSON type is incompatible with the target field's type (e.g. a
string where an integer is expected), the decode call fails as the
malformed-payload error and no event value is returned to the caller. -/
theorem typeIncompatibleField_fails (p : Json) (tag : VariantTag)
    (hsel : selectVariant (resolvedTypeName p) (resolvedSubType p) = .ok (some tag))
    (hbad : payloadHasTypeIncompatibleField (schemaOf tag) p = true) :
    convertJsonObjectToEvent p = .error .malformedPayload ∧
    ∀ ev : I_Event, convertJsonObjectToEvent p ≠ .ok ev := by
  have hc : checkFields (schemaOf tag) p = false := by
    rw [payloadHasTypeIncompatibleField, List.any_eq_true] at hbad
    obtain ⟨kt, hmem, hkt⟩ := hbad
    cases hj : jget p kt.1 with
    | none => rw [hj] at hkt; simp at hkt
    | some v =>
      rw [hj] at hkt
      cases hcc : checkFields (schemaOf tag) p with
      | false => rfl
      | true =>
        exfalso
        have := @checkFields_mem (schemaOf tag) p kt.1 kt.2 hcc (by simpa using hmem)
        rw [hj, incompatible_check_false hkt] at this
        exact absurd this (by simp)
  have hstep : convertJsonObjectToEvent p =
      (if checkFields (schemaOf tag) p = true then
        Except.ok (enrichEvent (buildVariant tag p) (resolvedFullTypeName p))
      else .error .malformedPayload) := by
    unfold convertJsonObjectToEvent
    rw [hsel]
  rw [hstep, if_neg (by simp [hc])]
  exact ⟨rfl, fun ev h => by injection h⟩

/-- C6 witness: a private-message payload whose `user_id` is a string fails
as the malformed-payload error, decided through the theorem. -/
theorem typeIncompatibleField_fails_witness :
    convertJsonObjectToEvent mismatchPayload = .error .malformedPayload :=
  (typeIncompatibleField_fails mismatchPayload .privateMessage (by decide) (by decide)).1

theorem enrichEvent_def (ev : I_Event) (f : String) :
    enrichEvent ev f =
      if isEventRelativeToBot (setEventNameField ev f) then
        setToMeField (setEventNameField ev f) true
      else setEventNameField ev f := rfl

theorem isRel_eq_specToMeCondition (ev : I_Event) :
    isEventRelativeToBot ev = specToMeCondition ev := by
  cases ev <;> rfl

theorem specToMeCondition_enrich (ev : I_Event) (f : String) :
    specToMeCondition (enrichEvent ev f) = specToMeCondition ev := by
  rw [enrichEvent_def]
  by_cases h : isEventRelativeToBot (setEventNameField ev f)
  · rw [if_pos h]; cases ev <;> rfl
  · rw [if_neg h]; cases ev <;> rfl

/-- C3: after enrichment, `toMe` is true exactly when the decoded event is
a private message; a group message whose content mentions or replies to
`selfId`; a group-decrease notice whose affected `userId` equals `selfId`;
a poke notice whose `targetId` equals `selfId`; a friend-add notice; or a
request event — and false for every other decoded variant
(`specToMeCondition` spells out exactly this case list). -/
theorem toMe_enrichment (p : Json) (ev : I_Event)
    (h : convertJsonObjectToEvent p = .ok ev) :
    ev.IsToMe = specToMeCondition ev := by
  obtain ⟨tag, hsel, hchk, hev⟩ := convert_ok_elim h
  rw [hev, isToMe_enrich _ _ (buildVariant_toMe_false tag p), specToMeCondition_enrich,
    isRel_eq_specToMeCondition]

/-- C3 witness: with otherwise-identical payloads, the decoded private
message has `toMe` true and the decoded group message with no mention of
`selfId` has `toMe` false, decided through the theorem. -/
theorem toMe_enrichment_witness :
    (convertJsonObjectToEvent privToMePayload).toOption.map I_Event.IsToMe = some true ∧
    (convertJsonObjectToEvent groupNoMentionPayload).toOption.map I_Event.IsToMe =
      some false := by
  constructor
  · cases hc : convertJsonObjectToEvent privToMePayload with
    | error e =>
      have hok : (convertJsonObjectToEvent privToMePayload).isOk = true := by decide
      rw [hc] at hok
      exact absurd hok (by simp [Except.isOk, Except.toBool])
    | ok ev =>
      have h := toMe_enrichment privToMePayload ev hc
      have h2 : (convertJsonObjectToEvent privToMePayload).toOption.map specToMeCondition =
          some true := by decide
      rw [hc] at h2
      simp only [Except.toOption, Option.map] at h2 ⊢
      rw [h]
      exact h2
  · cases hc : convertJsonObjectToEvent groupNoMentionPayload with
    | error e =>
      have hok : (convertJsonObjectToEvent groupNoMentionPayload).isOk = true := by decide
      rw [hc] at hok
      exact absurd hok (by simp [Except.isOk, Except.toBool])
    | ok ev =>
      have h := toMe_enrichment groupNoMentionPayload ev hc
      have h2 : (convertJsonObjectToEvent groupNoMentionPayload).toOption.map
          specToMeCondition = some false := by decide
      rw [hc] at h2
      simp only [Except.toOption, Option.map] at h2 ⊢
      rw [h]
      exact h2

theorem ctorTag_enrich (ev : I_Event) (f : String) :
    ctorTag (enrichEvent ev f) = ctorTag ev := by
  rw [enrichEvent_def]
  by_cases h : isEventRelativeToBot (setEventNameField ev f)
  · rw [if_pos h]; cases ev <;> rfl
  · rw [if_neg h]; cases ev <;> rfl

theorem ctorTag_buildVariant (tag : VariantTag) (p : Json) :
    ctorTag (buildVariant tag p) = tag := by
  cases tag <;> rfl

theorem enrich_groupMessage_fields (e : GroupMessageEvent) (f : String) :
    ∃ e', enrichEvent (.groupMessage e) f = .groupMessage e' ∧
      e'.Sender = e.Sender ∧ e'.Anonymous = e.Anonymous := by
  rw [enrichEvent_def]
  by_cases h : isEventRelativeToBot (setEventNameField (.groupMessage e) f)
  · rw [if_pos h]; exact ⟨_, rfl, rfl, rfl⟩
  · rw [if_neg h]; exact ⟨_, rfl, rfl, rfl⟩

theorem enrich_privateMessage_fields (e : PrivateMessageEvent) (f : String) :
    ∃ e', enrichEvent (.privateMessage e) f = .privateMessage e' ∧
      e'.Sender = e.Sender := by
  rw [enrichEvent_def]
  by_cases h : isEventRelativeToBot (setEventNameField (.privateMessage e) f)
  · rw [if_pos h]; exact ⟨_, rfl, rfl⟩
  · rw [if_neg h]; exact ⟨_, rfl, rfl⟩

/-- C10: an omitted `sender`/`anonymous` object decodes to the absent
(`none`) pointer, while a present object decodes to an allocated
descriptor (`some` of the decoded profile) — so the interface distinguishes
a missing profile from an all-zero one; this holds for the group message's
`Sender` and `Anonymous` and for the private message's `Sender`. -/
theorem missing_sender_is_nil (p : Json) :
    (∀ e, convertJsonObjectToEvent p = .ok (.groupMessage e) →
      (jget p "sender" = none → e.Sender = none) ∧
      (∀ fs, jget p "sender" = some (.obj fs) →
        e.Sender = some (buildGroupSender (.obj fs))) ∧
      (jget p "anonymous" = none → e.Anonymous = none) ∧
      (∀ fs, jget p "anonymous" = some (.obj fs) →
        e.Anonymous = some (buildAnonymous (.obj fs)))) ∧
    (∀ e, convertJsonObjectToEvent p = .ok (.privateMessage e) →
      (jget p "sender" = none → e.Sender = none) ∧
      (∀ fs, jget p "sender" = some (.obj fs) →
        e.Sender = some (buildSender (.obj fs)))) := by
  constructor
  · intro e h
    obtain ⟨tag, hsel, hchk, hev⟩ := convert_ok_elim h
    have htag : tag = .groupMessage := by
      have := congrArg ctorTag hev
      rw [ctorTag_enrich, ctorTag_buildVariant] at this
      simpa [ctorTag] using this.symm
    subst htag
    obtain ⟨e', he, hs, ha⟩ :=
      enrich_groupMessage_fields (buildGroupMessage p) (resolvedFullTypeName p)
    rw [show buildVariant .groupMessage p = .groupMessage (buildGroupMessage p) from rfl, he]
      at hev
    injection hev with hev'
    subst hev'
    refine ⟨?_, ?_, ?_, ?_⟩
    · intro hj
      rw [hs]
      show (dObj p "sender").map buildGroupSender = none
      rw [dObj, hj]
      rfl
    · intro fs hj
      rw [hs]
      show (dObj p "sender").map buildGroupSender = some (buildGroupSender (.obj fs))
      rw [dObj, hj]
      rfl
    · intro hj
      rw [ha]
      show (dObj p "anonymous").map buildAnonymous = none
      rw [dObj, hj]
      rfl
    · intro fs hj
      rw [ha]
      show (dObj p "anonymous").map buildAnonymous = some (buildAnonymous (.obj fs))
      rw [dObj, hj]
      rfl
  · intro e h
    obtain ⟨tag, hsel, hchk, hev⟩ := convert_ok_elim h
    have htag : tag = .privateMessage := by
      have := congrArg ctorTag hev
      rw [ctorTag_enrich, ctorTag_buildVariant] at this
      simpa [ctorTag] using this.symm
    subst htag
    obtain ⟨e', he, hs⟩ :=
      enrich_privateMessage_fields (buildPrivateMessage p) (resolvedFullTypeName p)
    rw [show buildVariant .privateMessage p = .privateMessage (buildPrivateMessage p) from rfl,
      he] at hev
    injection hev with hev'
    subst hev'
    constructor
    · intro hj
      rw [hs]
      show (dObj p "sender").map buildSender = none
      rw [dObj, hj]
      rfl
    · intro fs hj
      rw [hs]
      show (dObj p "sender").map buildSender = some (buildSender (.obj fs))
      rw [dObj, hj]
      rfl

/-- C10 witness: without `sender`/`anonymous` the decoded group message has
nil pointers; with a present (even empty) `sender` object it has an
allocated zero-valued profile — decided through the theorem. -/
theorem missing_sender_is_nil_witness :
    (convertJsonObjectToEvent groupNoSenderPayload).toOption.map
      (fun ev => match ev with
        | .groupMessage e => some (e.Sender.isSome, e.Anonymous.isSome)
        | _ => none) = some (some (false, false)) ∧
    (convertJsonObjectToEvent groupEmptySenderPayload).toOption.map
      (fun ev => match ev with
        | .groupMessage e => some (e.Sender.isSome, e.Anonymous.isSome)
        | _ => none) = some (some (true, true)) := by
  constructor
  · cases hc : convertJsonObjectToEvent groupNoSenderPayload with
    | error e =>
      have hok : (convertJsonObjectToEvent groupNoSenderPayload).isOk = true := by decide
      rw [hc] at hok
      exact absurd hok (by simp [Except.isOk, Except.toBool])
    | ok ev =>
      have hg : ctorTag ev = .groupMessage := by
        have h2 : (convertJsonObjectToEvent groupNoSenderPayload).toOption.map ctorTag =
            some .groupMessage := by decide
        rw [hc] at h2
        simpa [Except.toOption] using h2
      cases ev <;> simp [ctorTag] at hg
      case groupMessage e =>
        have h := ((missing_sender_is_nil groupNoSenderPayload).1 e hc)
        have hsend := h.1 (by rfl)
        have hanon := h.2.2.1 (by rfl)
        simp [Except.toOption, hsend, hanon]
  · cases hc : convertJsonObjectToEvent groupEmptySenderPayload with
    | error e =>
      have hok : (convertJsonObjectToEvent groupEmptySenderPayload).isOk = true := by decide
      rw [hc] at hok
      exact absurd hok (by simp [Except.isOk, Except.toBool])
    | ok ev =>
      have hg : ctorTag ev = .groupMessage := by
        have h2 : (convertJsonObjectToEvent groupEmptySenderPayload).toOption.map ctorTag =
            some .groupMessage := by decide
        rw [hc] at h2
        simpa [Except.toOption] using h2
      cases ev <;> simp [ctorTag] at hg
      case groupMessage e =>
        have h := ((missing_sender_is_nil groupEmptySenderPayload).1 e hc)
        have hsend := h.2.1 [] (by rfl)
        have hanon := h.2.2.2 [("id", .num 3)] (by rfl)
        simp [Except.toOption, hsend, hanon]

/-- Every wire key of every variant schema is already lowercase and is
neither `eventname` nor `tome` (the `json:"-"` derived fields are not in
any schema). -/
theorem schemaKeys_lowercase (tag : VariantTag) :
    ∀ kt ∈ schemaOf tag, lowercaseKey kt.1 = kt.1 ∧ kt.1 ≠ "eventname" ∧ kt.1 ≠ "tome" := by
  cases tag <;> decide

theorem checkFields_setKey {sch : List (String × FieldTy)} {p : Json} {k : String} {v : Json}
    (hks : ∀ kt ∈ sch, kt.1 ≠ k) :
    checkFields sch (setKey p k v) = checkFields sch p := by
  unfold checkFields
  induction sch with
  | nil => rfl
  | cons kt rest ih =>
    simp only [List.all_cons]
    rw [jget_setKey_ne (hks kt (List.mem_cons_self _ _)),
      ih (fun kt' hm => hks kt' (List.mem_cons_of_mem _ hm))]

theorem buildEvent_setKey {p : Json} {k : String} {v : Json}
    (hk : lowercaseKey k = "eventname" ∨ lowercaseKey k = "tome") :
    buildEvent (setKey p k v) = buildEvent p := by
  unfold buildEvent
  simp only [dInt, dStr]
  rw [jget_setKey_ne ((ne_key hk "time" (by decide)).symm),
    jget_setKey_ne ((ne_key hk "self_id" (by decide)).symm),
    jget_setKey_ne ((ne_key hk "post_type" (by decide)).symm)]

theorem buildMessageEvent_setKey {p : Json} {k : String} {v : Json}
    (hk : lowercaseKey k = "eventname" ∨ lowercaseKey k = "tome") :
    buildMessageEvent (setKey p k v) = buildMessageEvent p := by
  unfold buildMessageEvent
  rw [buildEvent_setKey hk]
  simp only [dInt, dStr]
  rw [jget_setKey_ne ((ne_key hk "message_type" (by decide)).symm),
    jget_setKey_ne ((ne_key hk "sub_type" (by decide)).symm),
    jget_setKey_ne ((ne_key hk "message_id" (by decide)).symm),
    jget_setKey_ne ((ne_key hk "user_id" (by decide)).symm),
    jget_setKey_ne ((ne_key hk "message" (by decide)).symm),
    jget_setKey_ne ((ne_key hk "raw_message" (by decide)).symm),
    jget_setKey_ne ((ne_key hk "font" (by decide)).symm)]

theorem buildNoticeEvent_setKey {p : Json} {k : String} {v : Json}
    (hk : lowercaseKey k = "eventname" ∨ lowercaseKey k = "tome") :
    buildNoticeEvent (setKey p k v) = buildNoticeEvent p := by
  unfold buildNoticeEvent
  rw [buildEvent_setKey hk]
  simp only [dStr]
  rw [jget_setKey_ne ((ne_key hk "notice_type" (by decide)).symm)]

theorem buildPrivateMessage_setKey {p : Json} {k : String} {v : Json}
    (hk : lowercaseKey k = "eventname" ∨ lowercaseKey k = "tome") :
    buildPrivateMessage (setKey p k v) = buildPrivateMessage p := by
  unfold buildPrivateMessage
  rw [buildMessageEvent_setKey hk]
  simp only [dObj]
  rw [jget_setKey_ne ((ne_key hk "sender" (by decide)).symm)]

theorem buildGroupMessage_setKey {p : Json} {k : String} {v : Json}
    (hk : lowercaseKey k = "eventname" ∨ lowercaseKey k = "tome") :
    buildGroupMessage (setKey p k v) = buildGroupMessage p := by
  unfold buildGroupMessage
  rw [buildMessageEvent_setKey hk]
  simp only [dObj, dInt]
  rw [jget_setKey_ne ((ne_key hk "group_id" (by decide)).symm),
    jget_setKey_ne ((ne_key hk "sender" (by decide)).symm),
    jget_setKey_ne ((ne_key hk "anonymous" (by decide)).symm)]

theorem buildGroupUpload_setKey {p : Json} {k : String} {v : Json}
    (hk : lowercaseKey k = "eventname" ∨ lowercaseKey k = "tome") :
    buildGroupUpload (setKey p k v) = buildGroupUpload p := by
  unfold buildGroupUpload
  rw [buildNoticeEvent_setKey hk]
  simp only [dObj, dInt]
  rw [jget_setKey_ne ((ne_key hk "group_id" (by decide)).symm),
    jget_setKey_ne ((ne_key hk "user_id" (by decide)).symm),
    jget_setKey_ne ((ne_key hk "file" (by decide)).symm)]

theorem buildGroupAdmin_setKey {p : Json} {k : String} {v : Json}
    (hk : lowercaseKey k = "eventname" ∨ lowercaseKey k = "tome") :
    buildGroupAdmin (setKey p k v) = buildGroupAdmin p := by
  unfold buildGroupAdmin
  rw [buildNoticeEvent_setKey hk]
  simp only [dInt, dStr]
  rw [jget_setKey_ne ((ne_key hk "sub_type" (by decide)).symm),
    jget_setKey_ne ((ne_key hk "group_id" (by decide)).symm),
    jget_setKey_ne ((ne_key hk "user_id" (by decide)).symm)]

theorem buildGroupIncrease_setKey {p : Json} {k : String} {v : Json}
    (hk : lowercaseKey k = "eventname" ∨ lowercaseKey k = "tome") :
    buildGroupIncrease (setKey p k v) = buildGroupIncrease p := by
  unfold buildGroupIncrease
  rw [buildNoticeEvent_setKey hk]
  simp only [dInt, dStr]
  rw [jget_setKey_ne ((ne_key hk "sub_type" (by decide)).symm),
    jget_setKey_ne ((ne_key hk "group_id" (by decide)).symm),
    jget_setKey_ne ((ne_key hk "user_id" (by decide)).symm),
    jget_setKey_ne ((ne_key hk "operator_id" (by decide)).symm)]

theorem buildGroupDecrease_setKey {p : Json} {k : String} {v : Json}
    (hk : lowercaseKey k = "eventname" ∨ lowercaseKey k = "tome") :
    buildGroupDecrease (setKey p k v) = buildGroupDecrease p := by
  unfold buildGroupDecrease
  rw [buildNoticeEvent_setKey hk]
  simp only [dInt, dStr]
  rw [jget_setKey_ne ((ne_key hk "sub_type" (by decide)).symm),
    jget_setKey_ne ((ne_key hk "group_id" (by decide)).symm),
    jget_setKey_ne ((ne_key hk "user_id" (by decide)).symm),
    jget_setKey_ne ((ne_key hk "operator_id" (by decide)).symm)]

theorem buildGroupBan_setKey {p : Json} {k : String} {v : Json}
    (hk : lowercaseKey k = "eventname" ∨ lowercaseKey k = "tome") :
    buildGroupBan (setKey p k v) = buildGroupBan p := by
  unfold buildGroupBan
  rw [buildNoticeEvent_setKey hk]
  simp only [dInt, dStr]
  rw [jget_setKey_ne ((ne_key hk "sub_type" (by decide)).symm),
    jget_setKey_ne ((ne_key hk "group_id" (by decide)).symm),
    jget_setKey_ne ((ne_key hk "user_id" (by decide)).symm),
    jget_setKey_ne ((ne_key hk "operator_id" (by decide)).symm),
    jget_setKey_ne ((ne_key hk "duration" (by decide)).symm)]

theorem buildFriendAdd_setKey {p : Json} {k : String} {v : Json}
    (hk : lowercaseKey k = "eventname" ∨ lowercaseKey k = "tome") :
    buildFriendAdd (setKey p k v) = buildFriendAdd p := by
  unfold buildFriendAdd
  rw [buildNoticeEvent_setKey hk]
  simp only [dInt]
  rw [jget_setKey_ne ((ne_key hk "user_id" (by decide)).symm)]

theorem buildGroupRecall_setKey {p : Json} {k : String} {v : Json}
    (hk : lowercaseKey k = "eventname" ∨ lowercaseKey k = "tome") :
    buildGroupRecall (setKey p k v) = buildGroupRecall p := by
  unfold buildGroupRecall
  rw [buildNoticeEvent_setKey hk]
  simp only [dInt]
  rw [jget_setKey_ne ((ne_key hk "group_id" (by decide)).symm),
    jget_setKey_ne ((ne_key hk "user_id" (by decide)).symm),
    jget_setKey_ne ((ne_key hk "operator_id" (by decide)).symm),
    jget_setKey_ne ((ne_key hk "message_id" (by decide)).symm)]

theorem buildFriendRecall_setKey {p : Json} {k : String} {v : Json}
    (hk : lowercaseKey k = "eventname" ∨ lowercaseKey k = "tome") :
    buildFriendRecall (setKey p k v) = buildFriendRecall p := by
  unfold buildFriendRecall
  rw [buildNoticeEvent_setKey hk]
  simp only [dInt]
  rw [jget_setKey_ne ((ne_key hk "user_id" (by decide)).symm),
    jget_setKey_ne ((ne_key hk "message_id" (by decide)).symm)]

theorem buildPoke_setKey {p : Json} {k : String} {v : Json}
    (hk : lowercaseKey k = "eventname" ∨ lowercaseKey k = "tome") :
    buildPoke (setKey p k v) = buildPoke p := by
  unfold buildPoke
  rw [buildNoticeEvent_setKey hk]
  simp only [dInt, dStr]
  rw [jget_setKey_ne ((ne_key hk "sub_type" (by decide)).symm),
    jget_setKey_ne ((ne_key hk "group_id" (by decide)).symm),
    jget_setKey_ne ((ne_key hk "user_id" (by decide)).symm),
    jget_setKey_ne ((ne_key hk "target_id" (by decide)).symm)]

theorem buildLuckyKing_setKey {p : Json} {k : String} {v : Json}
    (hk : lowercaseKey k = "eventname" ∨ lowercaseKey k = "tome") :
    buildLuckyKing (setKey p k v) = buildLuckyKing p := by
  unfold buildLuckyKing
  rw [buildNoticeEvent_setKey hk]
  simp only [dInt, dStr]
  rw [jget_setKey_ne ((ne_key hk "sub_type" (by decide)).symm),
    jget_setKey_ne ((ne_key hk "group_id" (by decide)).symm),
    jget_setKey_ne ((ne_key hk "user_id" (by decide)).symm),
    jget_setKey_ne ((ne_key hk "target_id" (by decide)).symm)]

theorem buildHonor_setKey {p : Json} {k : String} {v : Json}
    (hk : lowercaseKey k = "eventname" ∨ lowercaseKey k = "tome") :
    buildHonor (setKey p k v) = buildHonor p := by
  unfold buildHonor
  rw [buildNoticeEvent_setKey hk]
  simp only [dInt, dStr]
  rw [jget_setKey_ne ((ne_key hk "sub_type" (by decide)).symm),
    jget_setKey_ne ((ne_key hk "group_id" (by decide)).symm),
    jget_setKey_ne ((ne_key hk "user_id" (by decide)).symm),
    jget_setKey_ne ((ne_key hk "honor_type" (by decide)).symm)]

theorem buildFriendRequest_setKey {p : Json} {k : String} {v : Json}
    (hk : lowercaseKey k = "eventname" ∨ lowercaseKey k = "tome") :
    buildFriendRequest (setKey p k v) = buildFriendRequest p := by
  unfold buildFriendRequest
  rw [buildEvent_setKey hk]
  simp only [dInt, dStr]
  rw [jget_setKey_ne ((ne_key hk "request_type" (by decide)).symm),
    jget_setKey_ne ((ne_key hk "user_id" (by decide)).symm),
    jget_setKey_ne ((ne_key hk "comment" (by decide)).symm),
    jget_setKey_ne ((ne_key hk "flag" (by decide)).symm)]

theorem buildGroupRequest_setKey {p : Json} {k : String} {v : Json}
    (hk : lowercaseKey k = "eventname" ∨ lowercaseKey k = "tome") :
    buildGroupRequest (setKey p k v) = buildGroupRequest p := by
  unfold buildGroupRequest
  rw [buildEvent_setKey hk]
  simp only [dInt, dStr]
  rw [jget_setKey_ne ((ne_key hk "request_type" (by decide)).symm),
    jget_setKey_ne ((ne_key hk "sub_type" (by decide)).symm),
    jget_setKey_ne ((ne_key hk "group_id" (by decide)).symm),
    jget_setKey_ne ((ne_key hk "user_id" (by decide)).symm),
    jget_setKey_ne ((ne_key hk "comment" (by decide)).symm),
    jget_setKey_ne ((ne_key hk "flag" (by decide)).symm)]

theorem buildLifecycle_setKey {p : Json} {k : String} {v : Json}
    (hk : lowercaseKey k = "eventname" ∨ lowercaseKey k = "tome") :
    buildLifecycle (setKey p k v) = buildLifecycle p := by
  unfold buildLifecycle
  rw [buildEvent_setKey hk]
  simp only [dStr]
  rw [jget_setKey_ne ((ne_key hk "meta_event_type" (by decide)).symm),
    jget_setKey_ne ((ne_key hk "sub_type" (by decide)).symm)]

theorem buildHeartbeat_setKey {p : Json} {k : String} {v : Json}
    (hk : lowercaseKey k = "eventname" ∨ lowercaseKey k = "tome") :
    buildHeartbeat (setKey p k v) = buildHeartbeat p := by
  unfold buildHeartbeat
  rw [buildEvent_setKey hk]
  simp only [dInt, dStr, dObj]
  rw [jget_setKey_ne ((ne_key hk "meta_event_type" (by decide)).symm),
    jget_setKey_ne ((ne_key hk "status" (by decide)).symm),
    jget_setKey_ne ((ne_key hk "interval" (by decide)).symm)]

theorem buildVariant_setKey {p : Json} {k : String} {v : Json} (tag : VariantTag)
    (hk : lowercaseKey k = "eventname" ∨ lowercaseKey k = "tome") :
    buildVariant tag (setKey p k v) = buildVariant tag p := by
  cases tag <;>
    simp only [buildVariant, buildPrivateMessage_setKey hk, buildGroupMessage_setKey hk,
      buildGroupUpload_setKey hk, buildGroupAdmin_setKey hk, buildGroupDecrease_setKey hk,
      buildGroupIncrease_setKey hk, buildGroupBan_setKey hk, buildFriendAdd_setKey hk,
      buildGroupRecall_setKey hk, buildFriendRecall_setKey hk, buildPoke_setKey hk,
      buildLuckyKing_setKey hk, buildHonor_setKey hk, buildFriendRequest_setKey hk,
      buildGroupRequest_setKey hk, buildLifecycle_setKey hk, buildHeartbeat_setKey hk]

/-- C9: the derived fields can never be populated from the wire — adding or
changing a payload key whose name is any-cased `EventName` or `ToMe` leaves
the whole decode result (in particular the decoded event's `eventName` and
`toMe`) unchanged, because both fields are excluded from unmarshalling and
written only by the post-decode enrichment. -/
theorem derivedFields_not_from_wire (p : Json) (k : String) (v : Json)
    (hk : lowercaseKey k = "eventname" ∨ lowercaseKey k = "tome") :
    convertJsonObjectToEvent (setKey p k v) = convertJsonObjectToEvent p := by
  have hpost : resolvedPostType (setKey p k v) = resolvedPostType p := by
    unfold resolvedPostType
    rw [jget_setKey_ne ((ne_key hk "post_type" (by decide)).symm)]
  have hnext : resolvedNextType (setKey p k v) = resolvedNextType p := by
    unfold resolvedNextType
    rw [hpost, jget_setKey_ne ((ne_dynamic_key hk (resolvedPostType p)).symm)]
  have htn : resolvedTypeName (setKey p k v) = resolvedTypeName p := by
    unfold resolvedTypeName
    rw [hpost, hnext]
  have hsubp : subTypePresent (setKey p k v) = subTypePresent p := by
    unfold subTypePresent
    rw [jget_setKey_ne ((ne_key hk "sub_type" (by decide)).symm)]
  have hsub : resolvedSubType (setKey p k v) = resolvedSubType p := by
    unfold resolvedSubType
    rw [hsubp, jget_setKey_ne ((ne_key hk "sub_type" (by decide)).symm)]
  have hfull : resolvedFullTypeName (setKey p k v) = resolvedFullTypeName p := by
    unfold resolvedFullTypeName
    rw [hsubp, htn, hsub]
  unfold convertJsonObjectToEvent
  rw [htn, hsub, hfull]
  cases selectVariant (resolvedTypeName p) (resolvedSubType p) with
  | error e => rfl
  | ok o =>
    cases o with
    | none => rfl
    | some tag =>
      have hks : ∀ kt ∈ schemaOf tag, kt.1 ≠ k := fun kt hm =>
        (ne_key hk kt.1 (schemaKeys_lowercase tag kt hm)).symm
      show (if checkFields (schemaOf tag) (setKey p k v) = true then
          Except.ok (enrichEvent (buildVariant tag (setKey p k v)) (resolvedFullTypeName p))
        else Except.error DecodeError.malformedPayload) =
        (if checkFields (schemaOf tag) p = true then
          Except.ok (enrichEvent (buildVariant tag p) (resolvedFullTypeName p))
        else Except.error DecodeError.malformedPayload)
      rw [checkFields_setKey hks, buildVariant_setKey tag hk]

/-- C9 witness: injecting `EventName` and an odd-cased `ToME` key into a
private-message payload leaves the decode result unchanged, decided
through the theorem. -/
theorem derivedFields_not_from_wire_witness :
    convertJsonObjectToEvent (setKey spoofBasePayload "EventName" (.str "request.friend")) =
      convertJsonObjectToEvent spoofBasePayload ∧
    convertJsonObjectToEvent (setKey spoofBasePayload "ToME" (.bool true)) =
      convertJsonObjectToEvent spoofBasePayload ∧
    (convertJsonObjectToEvent spoofBasePayload).toOption.map
      (fun ev => (ev.GetEventName, ev.IsToMe)) = some ("message.private", true) :=
  ⟨derivedFields_not_from_wire spoofBasePayload "EventName" (.str "request.friend")
      (by decide),
   derivedFields_not_from_wire spoofBasePayload "ToME" (.bool true) (by decide),
   by decide⟩
